import Mathlib

set_option maxHeartbeats 1000000

/-
  Shallow embedding of libcdkpp (src/cdk.hpp), a header-only RAII C++ wrapper
  around the libcdk curses widget toolkit.  Every wrapper operation is modelled
  as the finite list of toolkit calls it performs, in order, together with the
  value it returns.  Native pointers are modelled by natural numbers with 0
  standing for nullptr; a char pointer is identified with the character data it
  points to.  The behaviour of the wrapped native library itself is an oracle
  (`Toolkit`): the wrapper's code determines which calls are made with which
  arguments and what is done with the returned values, and only that is
  embedded here.
-/

namespace cdk

/-- Object type tags (EObjectType of cdk.h); only the tags the wrapper uses are modelled. -/
inductive EObjectType where
  | vNULL
  | vLABEL
  | vBUTTON
  | vENTRY
  | vALPHALIST
  | vCALENDAR
deriving DecidableEq

/-- curses chtype, an unsigned character-plus-attributes value. -/
abbrev chtype := Nat

/-- using StringList = std::vector<std::string_view> (cdk.hpp line 28). -/
abbrev StringList := List String

/-- string2charptr from cdk.hpp: returns the pointer to the string's first
character.  A char pointer is modelled by the character data it points to,
so on the model the function is the identity. -/
def string2charptr (s : String) : String := s

/-- transformStringList from cdk.hpp: std::transform of string2charptr over v
with a back_inserter, i.e. an in-order map. -/
def transformStringList (v : StringList) : List String :=
  v.map string2charptr

/-- transformCharPtrPtr from cdk.hpp: for(int i = 0; i < size; ++i)
l.push_back(str[i]).  A negative size runs no iteration; reading past the end
of the array is undefined in C and modelled by the empty-string default. -/
def transformCharPtrPtr (str : List String) (size : Int) : StringList :=
  (List.range size.toNat).map (fun i => str.getD i "")

/-- struct point (cdk.hpp lines 160-170). -/
structure point where
  x : Int
  y : Int
deriving DecidableEq

/-- struct widget_size (cdk.hpp lines 172-176). -/
structure widget_size where
  width : Int
  height : Int
deriving DecidableEq

/-- struct drawing_options (cdk.hpp lines 181-191). -/
structure drawing_options where
  box : Bool := false
  shadow : Bool := false
deriving DecidableEq

/-- struct move_options (cdk.hpp lines 196-200). -/
structure move_options where
  relative : Bool := false
  refresh : Bool := false
deriving DecidableEq

/-- struct date (cdk.hpp lines 929-934). -/
structure date where
  day : Int
  month : Int
  year : Int
deriving DecidableEq

/-- struct date_attributes (cdk.hpp lines 935-940). -/
structure date_attributes where
  day : chtype
  month : chtype
  year : chtype
deriving DecidableEq

/-- The toolkit entry points the wrapper calls (the names appearing in
src/cdk.hpp), one constructor per native function. -/
inductive EntryPoint where
  | initCDKScreen
  | initCDKColor
  | endCDK
  | destroyCDKScreen
  | eraseCDKScreen
  | refreshCDKScreen
  | lowerCDKObject
  | raiseCDKObject
  | registerCDKObject
  | unregisterCDKObject
  | destroyCDKLabel
  | newCDKLabel
  | drawCDKLabel
  | eraseCDKLabel
  | getCDKLabelBox
  | getCDKLabelMessage
  | moveCDKLabel
  | positionCDKLabel
  | setCDKLabel
  | setCDKLabelBackgroundAttrib
  | setCDKLabelBackgroundColor
  | setCDKLabelBox
  | setCDKLabelBoxAttribute
  | setCDKLabelHorizontalChar
  | setCDKLabelLLChar
  | setCDKLabelLRChar
  | setCDKLabelMessage
  | setCDKLabelULChar
  | setCDKLabelURChar
  | setCDKLabelVerticalChar
  | waitCDKLabel
  | destroyCDKButton
  | newCDKButton
  | activateCDKButton
  | drawCDKButton
  | eraseCDKButton
  | getCDKButtonBox
  | getCDKButtonMessage
  | injectCDKButtonbox
  | setCDKButton
  | setCDKButtonBackgroundAttrib
  | setCDKButtonBackgroundColor
  | setCDKButtonBox
  | setCDKButtonBoxAttribute
  | setCDKButtonHorizontalChar
  | setCDKButtonLLChar
  | setCDKButtonLRChar
  | setCDKButtonMessage
  | setCDKButtonULChar
  | setCDKButtonURChar
  | setCDKButtonVerticalChar
  | moveCDKButton
  | positionCDKButton
  | destroyCDKEntry
  | newCDKEntry
  | activateCDKEntry
  | cleanCDKEntry
  | drawCDKEntry
  | eraseCDKEntry
  | getCDKEntryBox
  | getCDKEntryFillerChar
  | getCDKEntryHiddenChar
  | getCDKEntryMax
  | getCDKEntryMin
  | getCDKEntryValue
  | injectCDKEntry
  | moveCDKEntry
  | positionCDKEntry
  | setCDKEntry
  | setCDKEntryBackgroundAttrib
  | setCDKEntryBackgroundColor
  | setCDKEntryBox
  | setCDKEntryBoxAttribute
  | setCDKEntryCB
  | setCDKEntryFillerChar
  | setCDKEntryHiddenChar
  | setCDKEntryHighlight
  | setCDKEntryHorizontalChar
  | setCDKEntryLLChar
  | setCDKEntryLRChar
  | setCDKEntryMax
  | setCDKEntryMin
  | setCDKEntryPostProcess
  | setCDKEntryPreProcess
  | setCDKEntryULChar
  | setCDKEntryURChar
  | setCDKEntryValue
  | setCDKEntryVerticalChar
  | destroyCDKAlphalist
  | newCDKAlphalist
  | activateCDKAlphalist
  | drawCDKAlphalist
  | eraseCDKAlphalist
  | getCDKAlphalistBox
  | getCDKAlphalistContents
  | getCDKAlphalistCurrentItem
  | getCDKAlphalistFillerChar
  | getCDKAlphalistHighlight
  | injectCDKAlphalist
  | moveCDKAlphalist
  | positionCDKAlphalist
  | setCDKAlphalist
  | setCDKAlphalistBackgroundAttrib
  | setCDKAlphalistBackgroundColor
  | setCDKAlphalistBox
  | setCDKAlphalistBoxAttribute
  | setCDKAlphalistContents
  | setCDKAlphalistCurrentItem
  | setCDKAlphalistFillerChar
  | setCDKAlphalistHighlight
  | setCDKAlphalistHorizontalChar
  | setCDKAlphalistLLChar
  | setCDKAlphalistLRChar
  | setCDKAlphalistPostProcess
  | setCDKAlphalistPreProcess
  | setCDKAlphalistULChar
  | setCDKAlphalistURChar
  | setCDKAlphalistVerticalChar
  | destroyCDKCalendar
  | newCDKCalendar
  | activateCDKCalendar
  | drawCDKCalendar
  | eraseCDKCalendar
  | getCDKCalendarBox
  | getCDKCalendarDate
  | getCDKCalendarDayAttribute
  | getCDKCalendarHighlight
  | getCDKCalendarMarker
  | getCDKCalendarMonthAttribute
  | getCDKCalendarYearAttribute
  | injectCDKCalendar
  | moveCDKCalendar
  | positionCDKCalendar
  | removeCDKCalendarMarker
  | setCDKCalendar
  | setCDKCalendarBackgroundAttrib
  | setCDKCalendarBackgroundColor
  | setCDKCalendarBox
  | setCDKCalendarBoxAttribute
  | setCDKCalendarDate
  | setCDKCalendarDayAttribute
  | setCDKCalendarDaysNames
  | setCDKCalendarHighlight
  | setCDKCalendarHorizontalChar
  | setCDKCalendarLLChar
  | setCDKCalendarLRChar
  | setCDKCalendarMarker
  | setCDKCalendarMonthAttribute
  | setCDKCalendarMonthsNames
  | setCDKCalendarPostProcess
  | setCDKCalendarPreProcess
  | setCDKCalendarULChar
  | setCDKCalendarURChar
  | setCDKCalendarVerticalChar
  | setCDKCalendarYearAttribute
deriving DecidableEq

/-- A value crossing the wrapper/toolkit boundary. -/
inductive Arg where
  | int (i : Int)
  | ch (c : chtype)
  | str (s : String)
  | strL (l : List String)
  | ptr (p : Nat)
  | bool (b : Bool)
  | ty (t : EObjectType)
  | fn (f : Nat)
  | datev (d : date)
  | unit
deriving DecidableEq

/-- One performed toolkit call: the entry point and the actual arguments, in
the order the wrapper passes them. -/
structure Call where
  ep : EntryPoint
  args : List Arg
deriving DecidableEq

/-- The wrapped native library as an oracle: what each call returns (for calls
with out-parameters, the values written through them, bundled). -/
structure Toolkit where
  ret : Call → Arg

/-- struct widget (cdk.hpp lines 47-51): the base subobject each widget class
inherits.  Both members keep their C++ default initialisers: _vptr is nullptr
and type is vNULL unless assigned. -/
structure widget where
  vptr : Nat := 0
  type : EObjectType := .vNULL
deriving DecidableEq

/-- Process-wide state outside the toolkit: the static flag
screen::atexit_installed (false at namespace scope, line 155) and the list of
handlers registered with atexit, in registration order. -/
structure ProcState where
  atexit_installed : Bool
  atexitHandlers : List EntryPoint
deriving DecidableEq

/-- Initial process state: screen::atexit_installed = false, nothing registered. -/
def ProcState.init : ProcState := ⟨false, []⟩

/-- class screen: holds std::unique_ptr<CDKSCREEN, deleter> _ptr. -/
structure screen where
  ptr : Nat
deriving DecidableEq

/-- screen::screen(WINDOW*): calls initCDKScreen(cursesWindow) (whose returned
pointer is h), then initCDKColor(), then registers atexit(endCDK) if the
static flag is not yet set.  atexit is a libc call, recorded in ProcState, not
in the toolkit trace. -/
def screen.construct (cursesWindow : Nat) (h : Nat) (ps : ProcState) :
    screen × ProcState × List Call :=
  (⟨h⟩,
   if ps.atexit_installed then ps
   else ⟨true, ps.atexitHandlers ++ [.endCDK]⟩,
   [⟨.initCDKScreen, [.ptr cursesWindow]⟩, ⟨.initCDKColor, []⟩])

/-- screen destruction: the unique_ptr destructor invokes screen::deleter
(destroyCDKScreen) on the stored pointer only when it is non-null. -/
def screen.destruct (s : screen) : List Call :=
  if s.ptr = 0 then [] else [⟨.destroyCDKScreen, [.ptr s.ptr]⟩]

/-- Process exit: the atexit handlers run in reverse order of registration. -/
def processExit (ps : ProcState) : List Call :=
  ps.atexitHandlers.reverse.map (fun e => ⟨e, []⟩)

/-- screen::erase. -/
def screen.erase (s : screen) : List Call :=
  [⟨.eraseCDKScreen, [.ptr s.ptr]⟩]

/-- screen::refresh. -/
def screen.refresh (s : screen) : List Call :=
  [⟨.refreshCDKScreen, [.ptr s.ptr]⟩]

/-- screen::lowerObject(widget& w): lowerCDKObject(w.type, w._vptr).  The
member access w.type on a widget& binds to the base member widget::type. -/
def screen.lowerObject (w : widget) : List Call :=
  [⟨.lowerCDKObject, [.ty w.type, .ptr w.vptr]⟩]

/-- screen::raiseObject(widget& w): raiseCDKObject(w.type, w._vptr). -/
def screen.raiseObject (w : widget) : List Call :=
  [⟨.raiseCDKObject, [.ty w.type, .ptr w.vptr]⟩]

/-- screen::registerObject(widget& w): registerCDKObject(_ptr.get(), w.type, w._vptr). -/
def screen.registerObject (s : screen) (w : widget) : List Call :=
  [⟨.registerCDKObject, [.ptr s.ptr, .ty w.type, .ptr w.vptr]⟩]

/-- screen::unregisterObject(widget& w): unregisterCDKObject(w.type, w._vptr). -/
def screen.unregisterObject (w : widget) : List Call :=
  [⟨.unregisterCDKObject, [.ty w.type, .ptr w.vptr]⟩]

/-- class label : public widget.  base is the inherited widget subobject;
type is label's own member EObjectType type initialised to vLABEL (cdk.hpp
line 397), a distinct member that shadows widget::type; ptr is the
std::unique_ptr<CDKLABEL, deleter> _ptr. -/
structure label where
  base : widget := {}
  type : EObjectType := .vLABEL
  ptr : Nat := 0
deriving DecidableEq

/-- label::label() = default: empty object, null handle, base left at its
default initialisers. -/
def label.default : label := {}

/-- label::label(screen&, point, StringList, drawing_options): marshals the
message with transformStringList, calls newCDKLabel(parent._ptr.get(), p.x,
p.y, v.data(), v.size(), opt.box, opt.shadow) (whose returned pointer is h),
then assigns _vptr = _ptr.get().  The parent is taken by reference and not
modified; the base member widget::type is never assigned. -/
def label.construct (parent : screen) (p : point) (message : StringList)
    (opt : drawing_options) (h : Nat) : label × List Call :=
  (⟨⟨h, .vNULL⟩, .vLABEL, h⟩,
   [⟨.newCDKLabel, [.ptr parent.ptr, .int p.x, .int p.y,
       .strL (transformStringList message),
       .int ((transformStringList message).length : Int),
       .bool opt.box, .bool opt.shadow]⟩])

/-- label destruction: the unique_ptr destructor invokes label::deleter
(destroyCDKLabel) on the stored pointer only when it is non-null. -/
def label.destruct (l : label) : List Call :=
  if l.ptr = 0 then [] else [⟨.destroyCDKLabel, [.ptr l.ptr]⟩]

/-- Implicit move assignment dst = std::move(src): the trivially copyable
members (_vptr, both type members) are copied from src; the unique_ptr member
is move-assigned, which destroys dst's currently held pointer if non-null and
leaves src's unique_ptr null.  Returns (new dst, moved-from src, calls). -/
def label.moveAssign (dst src : label) : label × label × List Call :=
  (⟨src.base, src.type, src.ptr⟩,
   ⟨src.base, src.type, 0⟩,
   if dst.ptr = 0 then [] else [⟨.destroyCDKLabel, [.ptr dst.ptr]⟩])

/-- label::draw(boolean box). -/
def label.draw (l : label) (box : Bool) : List Call :=
  [⟨.drawCDKLabel, [.ptr l.ptr, .bool box]⟩]

/-- label::erase. -/
def label.erase (l : label) : List Call :=
  [⟨.eraseCDKLabel, [.ptr l.ptr]⟩]

/-- label::getBox: returns getCDKLabelBox(_ptr.get()). -/
def label.getBox (tk : Toolkit) (l : label) : List Call × Arg :=
  ([⟨.getCDKLabelBox, [.ptr l.ptr]⟩],
   tk.ret ⟨.getCDKLabelBox, [.ptr l.ptr]⟩)

/-- label::getMessage: calls getCDKLabelMessage(_ptr.get(), &linesCount) and
copies the first linesCount lines, in order, into a StringList.  The oracle
bundles the returned array and the count written through the out-parameter as
a strL value (the count being the array length). -/
def label.getMessage (tk : Toolkit) (l : label) : List Call × Arg :=
  ([⟨.getCDKLabelMessage, [.ptr l.ptr]⟩],
   match tk.ret ⟨.getCDKLabelMessage, [.ptr l.ptr]⟩ with
   | .strL msg => .strL (transformCharPtrPtr msg (msg.length : Int))
   | a => a)

/-- label::move(point, move_options): moveCDKLabel(_ptr.get(), p.x, p.y,
o.relative, o.refresh). -/
def label.move (l : label) (p : point) (o : move_options) : List Call :=
  [⟨.moveCDKLabel, [.ptr l.ptr, .int p.x, .int p.y, .bool o.relative, .bool o.refresh]⟩]

/-- label::position. -/
def label.position (l : label) : List Call :=
  [⟨.positionCDKLabel, [.ptr l.ptr]⟩]

/-- label::set(StringList, bool): marshals the message and calls
setCDKLabel(_ptr.get(), v.data(), v.size(), box). -/
def label.set (l : label) (message : StringList) (box : Bool) : List Call :=
  [⟨.setCDKLabel, [.ptr l.ptr,
      .strL (transformStringList message),
      .int ((transformStringList message).length : Int),
      .bool box]⟩]

/-- label::setBackgroundAttrib(chtype). -/
def label.setBackgroundAttrib (l : label) (attrib : chtype) : List Call :=
  [⟨.setCDKLabelBackgroundAttrib, [.ptr l.ptr, .ch attrib]⟩]

/-- label::setBackgroundColor(const char*). -/
def label.setBackgroundColor (l : label) (color : String) : List Call :=
  [⟨.setCDKLabelBackgroundColor, [.ptr l.ptr, .str color]⟩]

/-- label::setBox(bool). -/
def label.setBox (l : label) (box : Bool) : List Call :=
  [⟨.setCDKLabelBox, [.ptr l.ptr, .bool box]⟩]

/-- label::setBoxAttribute(chtype). -/
def label.setBoxAttribute (l : label) (character : chtype) : List Call :=
  [⟨.setCDKLabelBoxAttribute, [.ptr l.ptr, .ch character]⟩]

/-- label::setHorizontalChar(chtype). -/
def label.setHorizontalChar (l : label) (character : chtype) : List Call :=
  [⟨.setCDKLabelHorizontalChar, [.ptr l.ptr, .ch character]⟩]

/-- label::setLLChar(chtype). -/
def label.setLLChar (l : label) (character : chtype) : List Call :=
  [⟨.setCDKLabelLLChar, [.ptr l.ptr, .ch character]⟩]

/-- label::setLRChar(chtype). -/
def label.setLRChar (l : label) (character : chtype) : List Call :=
  [⟨.setCDKLabelLRChar, [.ptr l.ptr, .ch character]⟩]

/-- label::setMessage(StringList): marshals and calls
setCDKLabelMessage(_ptr.get(), v.data(), v.size()). -/
def label.setMessage (l : label) (message : StringList) : List Call :=
  [⟨.setCDKLabelMessage, [.ptr l.ptr,
      .strL (transformStringList message),
      .int ((transformStringList message).length : Int)]⟩]

/-- label::setULChar(chtype). -/
def label.setULChar (l : label) (character : chtype) : List Call :=
  [⟨.setCDKLabelULChar, [.ptr l.ptr, .ch character]⟩]

/-- label::setURChar(chtype). -/
def label.setURChar (l : label) (character : chtype) : List Call :=
  [⟨.setCDKLabelURChar, [.ptr l.ptr, .ch character]⟩]

/-- label::setVerticalChar(chtype). -/
def label.setVerticalChar (l : label) (character : chtype) : List Call :=
  [⟨.setCDKLabelVerticalChar, [.ptr l.ptr, .ch character]⟩]

/-- label::wait(char key): returns waitCDKLabel(_ptr.get(), key). -/
def label.wait (tk : Toolkit) (l : label) (key : chtype) : List Call × Arg :=
  ([⟨.waitCDKLabel, [.ptr l.ptr, .ch key]⟩],
   tk.ret ⟨.waitCDKLabel, [.ptr l.ptr, .ch key]⟩)

/-- class button : public widget, with its own member EObjectType type
initialised to vBUTTON (cdk.hpp line 563) shadowing widget::type. -/
structure button where
  base : widget := {}
  type : EObjectType := .vBUTTON
  ptr : Nat := 0
deriving DecidableEq

/-- button::button() = default. -/
def button.default : button := {}

/-- button::button(screen&, point, string_view, tButtonCallback,
drawing_options): calls newCDKButton(s._ptr.get(), p.x, p.y, message.data(),
cb, o.box, o.shadow) (whose returned pointer is h), then _vptr = _ptr.get(). -/
def button.construct (s : screen) (p : point) (message : String) (cb : Nat)
    (o : drawing_options) (h : Nat) : button × List Call :=
  (⟨⟨h, .vNULL⟩, .vBUTTON, h⟩,
   [⟨.newCDKButton, [.ptr s.ptr, .int p.x, .int p.y, .str message, .fn cb,
       .bool o.box, .bool o.shadow]⟩])

/-- button destruction: deleter (destroyCDKButton) runs only on a non-null
stored pointer. -/
def button.destruct (b : button) : List Call :=
  if b.ptr = 0 then [] else [⟨.destroyCDKButton, [.ptr b.ptr]⟩]

/-- Implicit move assignment dst = std::move(src) for button. -/
def button.moveAssign (dst src : button) : button × button × List Call :=
  (⟨src.base, src.type, src.ptr⟩,
   ⟨src.base, src.type, 0⟩,
   if dst.ptr = 0 then [] else [⟨.destroyCDKButton, [.ptr dst.ptr]⟩])

/-- button::activate(chtype* actions): returns activateCDKButton(_ptr.get(), actions). -/
def button.activate (tk : Toolkit) (b : button) (actions : Nat) : List Call × Arg :=
  ([⟨.activateCDKButton, [.ptr b.ptr, .ptr actions]⟩],
   tk.ret ⟨.activateCDKButton, [.ptr b.ptr, .ptr actions]⟩)

/-- button::draw(bool box). -/
def button.draw (b : button) (box : Bool) : List Call :=
  [⟨.drawCDKButton, [.ptr b.ptr, .bool box]⟩]

/-- button::erase. -/
def button.erase (b : button) : List Call :=
  [⟨.eraseCDKButton, [.ptr b.ptr]⟩]

/-- button::getBox: returns getCDKButtonBox(_ptr.get()). -/
def button.getBox (tk : Toolkit) (b : button) : List Call × Arg :=
  ([⟨.getCDKButtonBox, [.ptr b.ptr]⟩],
   tk.ret ⟨.getCDKButtonBox, [.ptr b.ptr]⟩)

/-- button::getMessage: returns getCDKButtonMessage(_ptr.get()) viewed as a
string_view over the returned characters. -/
def button.getMessage (tk : Toolkit) (b : button) : List Call × Arg :=
  ([⟨.getCDKButtonMessage, [.ptr b.ptr]⟩],
   tk.ret ⟨.getCDKButtonMessage, [.ptr b.ptr]⟩)

/-- button::inject(chtype input): returns injectCDKButtonbox(_ptr.get(), input)
(the name used by the button entry point in cdk.h). -/
def button.inject (tk : Toolkit) (b : button) (input : chtype) : List Call × Arg :=
  ([⟨.injectCDKButtonbox, [.ptr b.ptr, .ch input]⟩],
   tk.ret ⟨.injectCDKButtonbox, [.ptr b.ptr, .ch input]⟩)

/-- button::set(string_view, bool): setCDKButton(_ptr.get(), message.data(), box). -/
def button.set (b : button) (message : String) (box : Bool) : List Call :=
  [⟨.setCDKButton, [.ptr b.ptr, .str message, .bool box]⟩]

/-- button::setBackgroundAttrib(chtype). -/
def button.setBackgroundAttrib (b : button) (attrib : chtype) : List Call :=
  [⟨.setCDKButtonBackgroundAttrib, [.ptr b.ptr, .ch attrib]⟩]

/-- button::setBackgroundColor(const char*). -/
def button.setBackgroundColor (b : button) (color : String) : List Call :=
  [⟨.setCDKButtonBackgroundColor, [.ptr b.ptr, .str color]⟩]

/-- button::setBox(bool). -/
def button.setBox (b : button) (box : Bool) : List Call :=
  [⟨.setCDKButtonBox, [.ptr b.ptr, .bool box]⟩]

/-- button::setBoxAttribute(chtype). -/
def button.setBoxAttribute (b : button) (c : chtype) : List Call :=
  [⟨.setCDKButtonBoxAttribute, [.ptr b.ptr, .ch c]⟩]

/-- button::setHorizontalChar(chtype). -/
def button.setHorizontalChar (b : button) (c : chtype) : List Call :=
  [⟨.setCDKButtonHorizontalChar, [.ptr b.ptr, .ch c]⟩]

/-- button::setLLChar(chtype). -/
def button.setLLChar (b : button) (c : chtype) : List Call :=
  [⟨.setCDKButtonLLChar, [.ptr b.ptr, .ch c]⟩]

/-- button::setLRChar(chtype). -/
def button.setLRChar (b : button) (c : chtype) : List Call :=
  [⟨.setCDKButtonLRChar, [.ptr b.ptr, .ch c]⟩]

/-- button::setMessage(string_view): setCDKButtonMessage(_ptr.get(), message.data()). -/
def button.setMessage (b : button) (message : String) : List Call :=
  [⟨.setCDKButtonMessage, [.ptr b.ptr, .str message]⟩]

/-- button::setULChar(chtype). -/
def button.setULChar (b : button) (c : chtype) : List Call :=
  [⟨.setCDKButtonULChar, [.ptr b.ptr, .ch c]⟩]

/-- button::setURChar(chtype). -/
def button.setURChar (b : button) (c : chtype) : List Call :=
  [⟨.setCDKButtonURChar, [.ptr b.ptr, .ch c]⟩]

/-- button::setVerticalChar(chtype). -/
def button.setVerticalChar (b : button) (c : chtype) : List Call :=
  [⟨.setCDKButtonVerticalChar, [.ptr b.ptr, .ch c]⟩]

/-- button::move(point, move_options). -/
def button.move (b : button) (p : point) (o : move_options) : List Call :=
  [⟨.moveCDKButton, [.ptr b.ptr, .int p.x, .int p.y, .bool o.relative, .bool o.refresh]⟩]

/-- button::position. -/
def button.position (b : button) : List Call :=
  [⟨.positionCDKButton, [.ptr b.ptr]⟩]

/-- class text_entry : public widget, with its own member EObjectType type
initialised to vENTRY (cdk.hpp line 755) shadowing widget::type.  It has no
default constructor. -/
structure text_entry where
  base : widget := {}
  type : EObjectType := .vENTRY
  ptr : Nat := 0
deriving DecidableEq

/-- text_entry::text_entry(...): calls newCDKEntry(parent._ptr.get(), p.x, p.y,
title.data(), label.data(), fieldAttribute, fillerCharacter, displayType,
fieldWidth, minimumLength, maximumLength, o.box, o.shadow) (whose returned
pointer is h), then _vptr = _ptr.get().  EDisplayType is modelled by Nat. -/
def text_entry.construct (parent : screen) (p : point) (title lbl : String)
    (fieldAttribute fillerCharacter : chtype) (displayType : Nat)
    (fieldWidth minimumLength maximumLength : Int) (o : drawing_options)
    (h : Nat) : text_entry × List Call :=
  (⟨⟨h, .vNULL⟩, .vENTRY, h⟩,
   [⟨.newCDKEntry, [.ptr parent.ptr, .int p.x, .int p.y, .str title, .str lbl,
       .ch fieldAttribute, .ch fillerCharacter, .int (displayType : Int),
       .int fieldWidth, .int minimumLength, .int maximumLength,
       .bool o.box, .bool o.shadow]⟩])

/-- text_entry destruction: deleter (destroyCDKEntry) runs only on a non-null
stored pointer. -/
def text_entry.destruct (e : text_entry) : List Call :=
  if e.ptr = 0 then [] else [⟨.destroyCDKEntry, [.ptr e.ptr]⟩]

/-- text_entry::activate(chtype* actions): returns activateCDKEntry(_ptr.get(), actions). -/
def text_entry.activate (tk : Toolkit) (e : text_entry) (actions : Nat) : List Call × Arg :=
  ([⟨.activateCDKEntry, [.ptr e.ptr, .ptr actions]⟩],
   tk.ret ⟨.activateCDKEntry, [.ptr e.ptr, .ptr actions]⟩)

/-- text_entry::clean. -/
def text_entry.clean (e : text_entry) : List Call :=
  [⟨.cleanCDKEntry, [.ptr e.ptr]⟩]

/-- text_entry::draw(bool box). -/
def text_entry.draw (e : text_entry) (box : Bool) : List Call :=
  [⟨.drawCDKEntry, [.ptr e.ptr, .bool box]⟩]

/-- text_entry::erase. -/
def text_entry.erase (e : text_entry) : List Call :=
  [⟨.eraseCDKEntry, [.ptr e.ptr]⟩]

/-- text_entry::getBox. -/
def text_entry.getBox (tk : Toolkit) (e : text_entry) : List Call × Arg :=
  ([⟨.getCDKEntryBox, [.ptr e.ptr]⟩],
   tk.ret ⟨.getCDKEntryBox, [.ptr e.ptr]⟩)

/-- text_entry::getFillerChar. -/
def text_entry.getFillerChar (tk : Toolkit) (e : text_entry) : List Call × Arg :=
  ([⟨.getCDKEntryFillerChar, [.ptr e.ptr]⟩],
   tk.ret ⟨.getCDKEntryFillerChar, [.ptr e.ptr]⟩)

/-- text_entry::getHiddenChar. -/
def text_entry.getHiddenChar (tk : Toolkit) (e : text_entry) : List Call × Arg :=
  ([⟨.getCDKEntryHiddenChar, [.ptr e.ptr]⟩],
   tk.ret ⟨.getCDKEntryHiddenChar, [.ptr e.ptr]⟩)

/-- text_entry::getMax. -/
def text_entry.getMax (tk : Toolkit) (e : text_entry) : List Call × Arg :=
  ([⟨.getCDKEntryMax, [.ptr e.ptr]⟩],
   tk.ret ⟨.getCDKEntryMax, [.ptr e.ptr]⟩)

/-- text_entry::getMin. -/
def text_entry.getMin (tk : Toolkit) (e : text_entry) : List Call × Arg :=
  ([⟨.getCDKEntryMin, [.ptr e.ptr]⟩],
   tk.ret ⟨.getCDKEntryMin, [.ptr e.ptr]⟩)

/-- text_entry::getValue: returns getCDKEntryValue(_ptr.get()). -/
def text_entry.getValue (tk : Toolkit) (e : text_entry) : List Call × Arg :=
  ([⟨.getCDKEntryValue, [.ptr e.ptr]⟩],
   tk.ret ⟨.getCDKEntryValue, [.ptr e.ptr]⟩)

/-- text_entry::inject(chtype input): returns injectCDKEntry(_ptr.get(), input). -/
def text_entry.inject (tk : Toolkit) (e : text_entry) (input : chtype) : List Call × Arg :=
  ([⟨.injectCDKEntry, [.ptr e.ptr, .ch input]⟩],
   tk.ret ⟨.injectCDKEntry, [.ptr e.ptr, .ch input]⟩)

/-- text_entry::move(point, move_options). -/
def text_entry.move (e : text_entry) (p : point) (o : move_options) : List Call :=
  [⟨.moveCDKEntry, [.ptr e.ptr, .int p.x, .int p.y, .bool o.relative, .bool o.refresh]⟩]

/-- text_entry::position. -/
def text_entry.position (e : text_entry) : List Call :=
  [⟨.positionCDKEntry, [.ptr e.ptr]⟩]

/-- text_entry::set(string_view, int, int, bool): setCDKEntry(_ptr.get(),
value.data(), minimumLength, maximumLength, box). -/
def text_entry.set (e : text_entry) (value : String)
    (minimumLength maximumLength : Int) (box : Bool) : List Call :=
  [⟨.setCDKEntry, [.ptr e.ptr, .str value, .int minimumLength,
      .int maximumLength, .bool box]⟩]

/-- text_entry::setBackgroundAttrib(chtype). -/
def text_entry.setBackgroundAttrib (e : text_entry) (attrib : chtype) : List Call :=
  [⟨.setCDKEntryBackgroundAttrib, [.ptr e.ptr, .ch attrib]⟩]

/-- text_entry::setBackgroundColor(const char*). -/
def text_entry.setBackgroundColor (e : text_entry) (color : String) : List Call :=
  [⟨.setCDKEntryBackgroundColor, [.ptr e.ptr, .str color]⟩]

/-- text_entry::setBox(bool). -/
def text_entry.setBox (e : text_entry) (box : Bool) : List Call :=
  [⟨.setCDKEntryBox, [.ptr e.ptr, .bool box]⟩]

/-- text_entry::setBoxAttribute(chtype). -/
def text_entry.setBoxAttribute (e : text_entry) (character : chtype) : List Call :=
  [⟨.setCDKEntryBoxAttribute, [.ptr e.ptr, .ch character]⟩]

/-- text_entry::setCB(ENTRYCB). -/
def text_entry.setCB (e : text_entry) (callBackFunction : Nat) : List Call :=
  [⟨.setCDKEntryCB, [.ptr e.ptr, .fn callBackFunction]⟩]

/-- text_entry::setFillerChar(chtype). -/
def text_entry.setFillerChar (e : text_entry) (character : chtype) : List Call :=
  [⟨.setCDKEntryFillerChar, [.ptr e.ptr, .ch character]⟩]

/-- text_entry::setHiddenChar(chtype). -/
def text_entry.setHiddenChar (e : text_entry) (character : chtype) : List Call :=
  [⟨.setCDKEntryHiddenChar, [.ptr e.ptr, .ch character]⟩]

/-- text_entry::setHighlight(chtype, bool). -/
def text_entry.setHighlight (e : text_entry) (highlight : chtype) (cursor : Bool) : List Call :=
  [⟨.setCDKEntryHighlight, [.ptr e.ptr, .ch highlight, .bool cursor]⟩]

/-- text_entry::setHorizontalChar(chtype). -/
def text_entry.setHorizontalChar (e : text_entry) (character : chtype) : List Call :=
  [⟨.setCDKEntryHorizontalChar, [.ptr e.ptr, .ch character]⟩]

/-- text_entry::setLLChar(chtype). -/
def text_entry.setLLChar (e : text_entry) (character : chtype) : List Call :=
  [⟨.setCDKEntryLLChar, [.ptr e.ptr, .ch character]⟩]

/-- text_entry::setLRChar(chtype). -/
def text_entry.setLRChar (e : text_entry) (character : chtype) : List Call :=
  [⟨.setCDKEntryLRChar, [.ptr e.ptr, .ch character]⟩]

/-- text_entry::setMax(int). -/
def text_entry.setMax (e : text_entry) (maximum : Int) : List Call :=
  [⟨.setCDKEntryMax, [.ptr e.ptr, .int maximum]⟩]

/-- text_entry::setMin(int). -/
def text_entry.setMin (e : text_entry) (minimum : Int) : List Call :=
  [⟨.setCDKEntryMin, [.ptr e.ptr, .int minimum]⟩]

/-- text_entry::setPostProcess(PROCESSFN, void*). -/
def text_entry.setPostProcess (e : text_entry) (callback dataPtr : Nat) : List Call :=
  [⟨.setCDKEntryPostProcess, [.ptr e.ptr, .fn callback, .ptr dataPtr]⟩]

/-- text_entry::setPreProcess(PROCESSFN, void*). -/
def text_entry.setPreProcess (e : text_entry) (callback dataPtr : Nat) : List Call :=
  [⟨.setCDKEntryPreProcess, [.ptr e.ptr, .fn callback, .ptr dataPtr]⟩]

/-- text_entry::setULChar(chtype). -/
def text_entry.setULChar (e : text_entry) (character : chtype) : List Call :=
  [⟨.setCDKEntryULChar, [.ptr e.ptr, .ch character]⟩]

/-- text_entry::setURChar(chtype). -/
def text_entry.setURChar (e : text_entry) (character : chtype) : List Call :=
  [⟨.setCDKEntryURChar, [.ptr e.ptr, .ch character]⟩]

/-- text_entry::setValue(string_view): setCDKEntryValue(_ptr.get(), value.data()). -/
def text_entry.setValue (e : text_entry) (value : String) : List Call :=
  [⟨.setCDKEntryValue, [.ptr e.ptr, .str value]⟩]

/-- text_entry::setVerticalChar(chtype). -/
def text_entry.setVerticalChar (e : text_entry) (character : chtype) : List Call :=
  [⟨.setCDKEntryVerticalChar, [.ptr e.ptr, .ch character]⟩]

/-- class alpha_list : public widget, with its own member EObjectType type
initialised to vALPHALIST (cdk.hpp line 926) shadowing widget::type. -/
structure alpha_list where
  base : widget := {}
  type : EObjectType := .vALPHALIST
  ptr : Nat := 0
deriving DecidableEq

/-- alpha_list::alpha_list() = default. -/
def alpha_list.default : alpha_list := {}

/-- alpha_list::alpha_list(screen&, point, widget_size, ...): calls
newCDKAlphalist(parent._ptr.get(), p.x, p.y, size.height, size.width,
title.data(), label.data(), transformStringList(list).data(), list.size(),
fillerCharacter, highlight, o.box, o.shadow) (whose returned pointer is h),
then _vptr = _ptr.get().  Note the source passes height before width. -/
def alpha_list.construct (parent : screen) (p : point) (size : widget_size)
    (title lbl : String) (list : StringList)
    (fillerCharacter highlight : chtype) (o : drawing_options)
    (h : Nat) : alpha_list × List Call :=
  (⟨⟨h, .vNULL⟩, .vALPHALIST, h⟩,
   [⟨.newCDKAlphalist, [.ptr parent.ptr, .int p.x, .int p.y,
       .int size.height, .int size.width, .str title, .str lbl,
       .strL (transformStringList list), .int (list.length : Int),
       .ch fillerCharacter, .ch highlight, .bool o.box, .bool o.shadow]⟩])

/-- alpha_list destruction: deleter (destroyCDKAlphalist) runs only on a
non-null stored pointer. -/
def alpha_list.destruct (a : alpha_list) : List Call :=
  if a.ptr = 0 then [] else [⟨.destroyCDKAlphalist, [.ptr a.ptr]⟩]

/-- Implicit move assignment dst = std::move(src) for alpha_list. -/
def alpha_list.moveAssign (dst src : alpha_list) : alpha_list × alpha_list × List Call :=
  (⟨src.base, src.type, src.ptr⟩,
   ⟨src.base, src.type, 0⟩,
   if dst.ptr = 0 then [] else [⟨.destroyCDKAlphalist, [.ptr dst.ptr]⟩])

/-- alpha_list::activate(chtype* actions): returns
std::string(activateCDKAlphalist(_ptr.get(), actions)), a copy of the
characters the toolkit returned. -/
def alpha_list.activate (tk : Toolkit) (a : alpha_list) (actions : Nat) : List Call × Arg :=
  ([⟨.activateCDKAlphalist, [.ptr a.ptr, .ptr actions]⟩],
   tk.ret ⟨.activateCDKAlphalist, [.ptr a.ptr, .ptr actions]⟩)

/-- alpha_list::draw(bool box). -/
def alpha_list.draw (a : alpha_list) (box : Bool) : List Call :=
  [⟨.drawCDKAlphalist, [.ptr a.ptr, .bool box]⟩]

/-- alpha_list::erase. -/
def alpha_list.erase (a : alpha_list) : List Call :=
  [⟨.eraseCDKAlphalist, [.ptr a.ptr]⟩]

/-- alpha_list::getBox. -/
def alpha_list.getBox (tk : Toolkit) (a : alpha_list) : List Call × Arg :=
  ([⟨.getCDKAlphalistBox, [.ptr a.ptr]⟩],
   tk.ret ⟨.getCDKAlphalistBox, [.ptr a.ptr]⟩)

/-- alpha_list::getContents: calls getCDKAlphalistContents(_ptr.get(), &items)
and returns transformCharPtrPtr(contents, items).  The oracle bundles the
returned array and the count written through the out-parameter as a strL
value (the count being the array length). -/
def alpha_list.getContents (tk : Toolkit) (a : alpha_list) : List Call × Arg :=
  ([⟨.getCDKAlphalistContents, [.ptr a.ptr]⟩],
   match tk.ret ⟨.getCDKAlphalistContents, [.ptr a.ptr]⟩ with
   | .strL contents => .strL (transformCharPtrPtr contents (contents.length : Int))
   | x => x)

/-- alpha_list::getCurrentItem. -/
def alpha_list.getCurrentItem (tk : Toolkit) (a : alpha_list) : List Call × Arg :=
  ([⟨.getCDKAlphalistCurrentItem, [.ptr a.ptr]⟩],
   tk.ret ⟨.getCDKAlphalistCurrentItem, [.ptr a.ptr]⟩)

/-- alpha_list::getFillerChar. -/
def alpha_list.getFillerChar (tk : Toolkit) (a : alpha_list) : List Call × Arg :=
  ([⟨.getCDKAlphalistFillerChar, [.ptr a.ptr]⟩],
   tk.ret ⟨.getCDKAlphalistFillerChar, [.ptr a.ptr]⟩)

/-- alpha_list::getHighlight. -/
def alpha_list.getHighlight (tk : Toolkit) (a : alpha_list) : List Call × Arg :=
  ([⟨.getCDKAlphalistHighlight, [.ptr a.ptr]⟩],
   tk.ret ⟨.getCDKAlphalistHighlight, [.ptr a.ptr]⟩)

/-- alpha_list::inject(chtype input): returns injectCDKAlphalist(_ptr.get(), input). -/
def alpha_list.inject (tk : Toolkit) (a : alpha_list) (input : chtype) : List Call × Arg :=
  ([⟨.injectCDKAlphalist, [.ptr a.ptr, .ch input]⟩],
   tk.ret ⟨.injectCDKAlphalist, [.ptr a.ptr, .ch input]⟩)

/-- alpha_list::move(point, move_options). -/
def alpha_list.move (a : alpha_list) (p : point) (o : move_options) : List Call :=
  [⟨.moveCDKAlphalist, [.ptr a.ptr, .int p.x, .int p.y, .bool o.relative, .bool o.refresh]⟩]

/-- alpha_list::position. -/
def alpha_list.position (a : alpha_list) : List Call :=
  [⟨.positionCDKAlphalist, [.ptr a.ptr]⟩]

/-- alpha_list::set(StringList, chtype, chtype, bool): setCDKAlphalist(
_ptr.get(), transformStringList(list).data(), list.size(), fillerCharacter,
highlight, box). -/
def alpha_list.set (a : alpha_list) (list : StringList)
    (fillerCharacter highlight : chtype) (box : Bool) : List Call :=
  [⟨.setCDKAlphalist, [.ptr a.ptr, .strL (transformStringList list),
      .int (list.length : Int), .ch fillerCharacter, .ch highlight, .bool box]⟩]

/-- alpha_list::setBackgroundAttrib(chtype). -/
def alpha_list.setBackgroundAttrib (a : alpha_list) (attrib : chtype) : List Call :=
  [⟨.setCDKAlphalistBackgroundAttrib, [.ptr a.ptr, .ch attrib]⟩]

/-- alpha_list::setBackgroundColor(const char*). -/
def alpha_list.setBackgroundColor (a : alpha_list) (color : String) : List Call :=
  [⟨.setCDKAlphalistBackgroundColor, [.ptr a.ptr, .str color]⟩]

/-- alpha_list::setBox(bool). -/
def alpha_list.setBox (a : alpha_list) (box : Bool) : List Call :=
  [⟨.setCDKAlphalistBox, [.ptr a.ptr, .bool box]⟩]

/-- alpha_list::setBoxAttribute(chtype). -/
def alpha_list.setBoxAttribute (a : alpha_list) (character : chtype) : List Call :=
  [⟨.setCDKAlphalistBoxAttribute, [.ptr a.ptr, .ch character]⟩]

/-- alpha_list::setContents(StringList): setCDKAlphalistContents(_ptr.get(),
transformStringList(c).data(), c.size()). -/
def alpha_list.setContents (a : alpha_list) (c : StringList) : List Call :=
  [⟨.setCDKAlphalistContents, [.ptr a.ptr, .strL (transformStringList c),
      .int (c.length : Int)]⟩]

/-- alpha_list::setCurrentItem(int). -/
def alpha_list.setCurrentItem (a : alpha_list) (item : Int) : List Call :=
  [⟨.setCDKAlphalistCurrentItem, [.ptr a.ptr, .int item]⟩]

/-- alpha_list::setFillerChar(chtype). -/
def alpha_list.setFillerChar (a : alpha_list) (fillerCharacter : chtype) : List Call :=
  [⟨.setCDKAlphalistFillerChar, [.ptr a.ptr, .ch fillerCharacter]⟩]

/-- alpha_list::setHighlight(chtype). -/
def alpha_list.setHighlight (a : alpha_list) (highlight : chtype) : List Call :=
  [⟨.setCDKAlphalistHighlight, [.ptr a.ptr, .ch highlight]⟩]

/-- alpha_list::setHorizontalChar(chtype). -/
def alpha_list.setHorizontalChar (a : alpha_list) (character : chtype) : List Call :=
  [⟨.setCDKAlphalistHorizontalChar, [.ptr a.ptr, .ch character]⟩]

/-- alpha_list::setLLChar(chtype). -/
def alpha_list.setLLChar (a : alpha_list) (character : chtype) : List Call :=
  [⟨.setCDKAlphalistLLChar, [.ptr a.ptr, .ch character]⟩]

/-- alpha_list::setLRChar(chtype). -/
def alpha_list.setLRChar (a : alpha_list) (character : chtype) : List Call :=
  [⟨.setCDKAlphalistLRChar, [.ptr a.ptr, .ch character]⟩]

/-- alpha_list::setPostProcess(PROCESSFN, void*). -/
def alpha_list.setPostProcess (a : alpha_list) (callback dataPtr : Nat) : List Call :=
  [⟨.setCDKAlphalistPostProcess, [.ptr a.ptr, .fn callback, .ptr dataPtr]⟩]

/-- alpha_list::setPreProcess(PROCESSFN, void*). -/
def alpha_list.setPreProcess (a : alpha_list) (callback dataPtr : Nat) : List Call :=
  [⟨.setCDKAlphalistPreProcess, [.ptr a.ptr, .fn callback, .ptr dataPtr]⟩]

/-- alpha_list::setULChar(chtype). -/
def alpha_list.setULChar (a : alpha_list) (character : chtype) : List Call :=
  [⟨.setCDKAlphalistULChar, [.ptr a.ptr, .ch character]⟩]

/-- alpha_list::setURChar(chtype). -/
def alpha_list.setURChar (a : alpha_list) (character : chtype) : List Call :=
  [⟨.setCDKAlphalistURChar, [.ptr a.ptr, .ch character]⟩]

/-- alpha_list::setVerticalChar(chtype). -/
def alpha_list.setVerticalChar (a : alpha_list) (character : chtype) : List Call :=
  [⟨.setCDKAlphalistVerticalChar, [.ptr a.ptr, .ch character]⟩]

/-- class calendar : public widget, with its own member EObjectType type
initialised to vCALENDAR (cdk.hpp line 1252) shadowing widget::type. -/
structure calendar where
  base : widget := {}
  type : EObjectType := .vCALENDAR
  ptr : Nat := 0
deriving DecidableEq

/-- calendar::calendar() = default. -/
def calendar.default : calendar := {}

/-- calendar::calendar(screen parent, ...) (cdk.hpp line 973): the parent is
taken BY VALUE, so the caller's screen object is moved into the parameter; the
body calls newCDKCalendar(parent._ptr.get(), p.x, p.y, title.data(), d.day,
d.month, d.year, attr.day, attr.month, attr.year, highlight, o.box, o.shadow)
(whose returned pointer is h) and assigns _vptr = _ptr.get(); when the
constructor returns, the by-value parameter is destroyed and its unique_ptr
runs destroyCDKScreen on the (non-null) screen handle.  Returns the new
calendar, the caller's moved-from screen, and the performed calls in order. -/
def calendar.construct (parent : screen) (p : point) (title : String)
    (d : date) (attr : date_attributes) (highlight : chtype)
    (o : drawing_options) (h : Nat) : calendar × screen × List Call :=
  (⟨⟨h, .vNULL⟩, .vCALENDAR, h⟩,
   ⟨0⟩,
   [⟨.newCDKCalendar, [.ptr parent.ptr, .int p.x, .int p.y, .str title,
       .int d.day, .int d.month, .int d.year,
       .ch attr.day, .ch attr.month, .ch attr.year,
       .ch highlight, .bool o.box, .bool o.shadow]⟩] ++
   (if parent.ptr = 0 then [] else [⟨.destroyCDKScreen, [.ptr parent.ptr]⟩]))

/-- calendar destruction: deleter (destroyCDKCalendar) runs only on a non-null
stored pointer. -/
def calendar.destruct (c : calendar) : List Call :=
  if c.ptr = 0 then [] else [⟨.destroyCDKCalendar, [.ptr c.ptr]⟩]

/-- Implicit move assignment dst = std::move(src) for calendar. -/
def calendar.moveAssign (dst src : calendar) : calendar × calendar × List Call :=
  (⟨src.base, src.type, src.ptr⟩,
   ⟨src.base, src.type, 0⟩,
   if dst.ptr = 0 then [] else [⟨.destroyCDKCalendar, [.ptr dst.ptr]⟩])

/-- calendar::activate(chtype* actions): returns activateCDKCalendar(_ptr.get(), actions). -/
def calendar.activate (tk : Toolkit) (c : calendar) (actions : Nat) : List Call × Arg :=
  ([⟨.activateCDKCalendar, [.ptr c.ptr, .ptr actions]⟩],
   tk.ret ⟨.activateCDKCalendar, [.ptr c.ptr, .ptr actions]⟩)

/-- calendar::draw(bool box). -/
def calendar.draw (c : calendar) (box : Bool) : List Call :=
  [⟨.drawCDKCalendar, [.ptr c.ptr, .bool box]⟩]

/-- calendar::erase. -/
def calendar.erase (c : calendar) : List Call :=
  [⟨.eraseCDKCalendar, [.ptr c.ptr]⟩]

/-- calendar::getBox. -/
def calendar.getBox (tk : Toolkit) (c : calendar) : List Call × Arg :=
  ([⟨.getCDKCalendarBox, [.ptr c.ptr]⟩],
   tk.ret ⟨.getCDKCalendarBox, [.ptr c.ptr]⟩)

/-- calendar::getDate: calls getCDKCalendarDate(_ptr.get(), &d.day, &d.month,
&d.year) and returns the date d filled through the out-parameters, bundled by
the oracle as a datev value. -/
def calendar.getDate (tk : Toolkit) (c : calendar) : List Call × Arg :=
  ([⟨.getCDKCalendarDate, [.ptr c.ptr]⟩],
   match tk.ret ⟨.getCDKCalendarDate, [.ptr c.ptr]⟩ with
   | .datev d => .datev ⟨d.day, d.month, d.year⟩
   | x => x)

/-- calendar::getDayAttribute. -/
def calendar.getDayAttribute (tk : Toolkit) (c : calendar) : List Call × Arg :=
  ([⟨.getCDKCalendarDayAttribute, [.ptr c.ptr]⟩],
   tk.ret ⟨.getCDKCalendarDayAttribute, [.ptr c.ptr]⟩)

/-- calendar::getHighlight. -/
def calendar.getHighlight (tk : Toolkit) (c : calendar) : List Call × Arg :=
  ([⟨.getCDKCalendarHighlight, [.ptr c.ptr]⟩],
   tk.ret ⟨.getCDKCalendarHighlight, [.ptr c.ptr]⟩)

/-- calendar::getMarker(date): returns getCDKCalendarMarker(_ptr.get(), d.day,
d.month, d.year). -/
def calendar.getMarker (tk : Toolkit) (c : calendar) (d : date) : List Call × Arg :=
  ([⟨.getCDKCalendarMarker, [.ptr c.ptr, .int d.day, .int d.month, .int d.year]⟩],
   tk.ret ⟨.getCDKCalendarMarker, [.ptr c.ptr, .int d.day, .int d.month, .int d.year]⟩)

/-- calendar::getMonthAttribute. -/
def calendar.getMonthAttribute (tk : Toolkit) (c : calendar) : List Call × Arg :=
  ([⟨.getCDKCalendarMonthAttribute, [.ptr c.ptr]⟩],
   tk.ret ⟨.getCDKCalendarMonthAttribute, [.ptr c.ptr]⟩)

/-- calendar::getYearAttribute. -/
def calendar.getYearAttribute (tk : Toolkit) (c : calendar) : List Call × Arg :=
  ([⟨.getCDKCalendarYearAttribute, [.ptr c.ptr]⟩],
   tk.ret ⟨.getCDKCalendarYearAttribute, [.ptr c.ptr]⟩)

/-- calendar::inject(chtype input): returns injectCDKCalendar(_ptr.get(), input). -/
def calendar.inject (tk : Toolkit) (c : calendar) (input : chtype) : List Call × Arg :=
  ([⟨.injectCDKCalendar, [.ptr c.ptr, .ch input]⟩],
   tk.ret ⟨.injectCDKCalendar, [.ptr c.ptr, .ch input]⟩)

/-- calendar::move(point, move_options). -/
def calendar.move (c : calendar) (p : point) (o : move_options) : List Call :=
  [⟨.moveCDKCalendar, [.ptr c.ptr, .int p.x, .int p.y, .bool o.relative, .bool o.refresh]⟩]

/-- calendar::position. -/
def calendar.position (c : calendar) : List Call :=
  [⟨.positionCDKCalendar, [.ptr c.ptr]⟩]

/-- calendar::removeMarker(date): removeCDKCalendarMarker(_ptr.get(), d.day,
d.month, d.year). -/
def calendar.removeMarker (c : calendar) (d : date) : List Call :=
  [⟨.removeCDKCalendarMarker, [.ptr c.ptr, .int d.day, .int d.month, .int d.year]⟩]

/-- calendar::set(date, date_attributes, chtype, bool): setCDKCalendar(
_ptr.get(), d.day, d.month, d.year, attr.day, attr.month, attr.year,
highlight, box). -/
def calendar.set (c : calendar) (d : date) (attr : date_attributes)
    (highlight : chtype) (box : Bool) : List Call :=
  [⟨.setCDKCalendar, [.ptr c.ptr, .int d.day, .int d.month, .int d.year,
      .ch attr.day, .ch attr.month, .ch attr.year, .ch highlight, .bool box]⟩]

/-- calendar::setBackgroundAttrib(chtype). -/
def calendar.setBackgroundAttrib (c : calendar) (attrib : chtype) : List Call :=
  [⟨.setCDKCalendarBackgroundAttrib, [.ptr c.ptr, .ch attrib]⟩]

/-- calendar::setBackgroundColor(string_view): setCDKCalendarBackgroundColor(
_ptr.get(), color.data()). -/
def calendar.setBackgroundColor (c : calendar) (color : String) : List Call :=
  [⟨.setCDKCalendarBackgroundColor, [.ptr c.ptr, .str color]⟩]

/-- calendar::setBox(bool). -/
def calendar.setBox (c : calendar) (box : Bool) : List Call :=
  [⟨.setCDKCalendarBox, [.ptr c.ptr, .bool box]⟩]

/-- calendar::setBoxAttribute(chtype). -/
def calendar.setBoxAttribute (c : calendar) (ch : chtype) : List Call :=
  [⟨.setCDKCalendarBoxAttribute, [.ptr c.ptr, .ch ch]⟩]

/-- calendar::setDate(date): setCDKCalendarDate(_ptr.get(), d.day, d.month, d.year). -/
def calendar.setDate (c : calendar) (d : date) : List Call :=
  [⟨.setCDKCalendarDate, [.ptr c.ptr, .int d.day, .int d.month, .int d.year]⟩]

/-- calendar::setDayAttribute(chtype). -/
def calendar.setDayAttribute (c : calendar) (attrib : chtype) : List Call :=
  [⟨.setCDKCalendarDayAttribute, [.ptr c.ptr, .ch attrib]⟩]

/-- calendar::setDaysNames(string_view): setCDKCalendarDaysNames(_ptr.get(),
days.data()). -/
def calendar.setDaysNames (c : calendar) (days : String) : List Call :=
  [⟨.setCDKCalendarDaysNames, [.ptr c.ptr, .str days]⟩]

/-- calendar::setHighlight(chtype). -/
def calendar.setHighlight (c : calendar) (attrib : chtype) : List Call :=
  [⟨.setCDKCalendarHighlight, [.ptr c.ptr, .ch attrib]⟩]

/-- calendar::setHorizontalChar(chtype). -/
def calendar.setHorizontalChar (c : calendar) (ch : chtype) : List Call :=
  [⟨.setCDKCalendarHorizontalChar, [.ptr c.ptr, .ch ch]⟩]

/-- calendar::setLLChar(chtype). -/
def calendar.setLLChar (c : calendar) (ch : chtype) : List Call :=
  [⟨.setCDKCalendarLLChar, [.ptr c.ptr, .ch ch]⟩]

/-- calendar::setLRChar(chtype). -/
def calendar.setLRChar (c : calendar) (ch : chtype) : List Call :=
  [⟨.setCDKCalendarLRChar, [.ptr c.ptr, .ch ch]⟩]

/-- calendar::setMarker(date, chtype): setCDKCalendarMarker(_ptr.get(), d.day,
d.month, d.year, marker). -/
def calendar.setMarker (c : calendar) (d : date) (marker : chtype) : List Call :=
  [⟨.setCDKCalendarMarker, [.ptr c.ptr, .int d.day, .int d.month, .int d.year, .ch marker]⟩]

/-- calendar::setMonthAttribute(chtype). -/
def calendar.setMonthAttribute (c : calendar) (attrib : chtype) : List Call :=
  [⟨.setCDKCalendarMonthAttribute, [.ptr c.ptr, .ch attrib]⟩]

/-- calendar::setMonthsNames(StringList): setCDKCalendarMonthsNames(_ptr.get(),
transformStringList(months).data()); no size argument is passed. -/
def calendar.setMonthsNames (c : calendar) (months : StringList) : List Call :=
  [⟨.setCDKCalendarMonthsNames, [.ptr c.ptr, .strL (transformStringList months)]⟩]

/-- calendar::setPostProcess(PROCESSFN, void*). -/
def calendar.setPostProcess (c : calendar) (callback dataPtr : Nat) : List Call :=
  [⟨.setCDKCalendarPostProcess, [.ptr c.ptr, .fn callback, .ptr dataPtr]⟩]

/-- calendar::setPreProcess(PROCESSFN, void*). -/
def calendar.setPreProcess (c : calendar) (callback dataPtr : Nat) : List Call :=
  [⟨.setCDKCalendarPreProcess, [.ptr c.ptr, .fn callback, .ptr dataPtr]⟩]

/-- calendar::setULChar(chtype). -/
def calendar.setULChar (c : calendar) (ch : chtype) : List Call :=
  [⟨.setCDKCalendarULChar, [.ptr c.ptr, .ch ch]⟩]

/-- calendar::setURChar(chtype). -/
def calendar.setURChar (c : calendar) (ch : chtype) : List Call :=
  [⟨.setCDKCalendarURChar, [.ptr c.ptr, .ch ch]⟩]

/-- calendar::setVerticalChar(chtype). -/
def calendar.setVerticalChar (c : calendar) (ch : chtype) : List Call :=
  [⟨.setCDKCalendarVerticalChar, [.ptr c.ptr, .ch ch]⟩]

/-- calendar::setYearAttribute(chtype). -/
def calendar.setYearAttribute (c : calendar) (attrib : chtype) : List Call :=
  [⟨.setCDKCalendarYearAttribute, [.ptr c.ptr, .ch attrib]⟩]

/-- One invocation of a widget or screen method (every non-special member
function of the six classes of cdk.hpp, with its receiver and arguments).
Constructors and destructors are modelled separately by the construct,
destruct and moveAssign functions above. -/
inductive MethodCall where
  | screen_erase (s : screen)
  | screen_refresh (s : screen)
  | screen_lowerObject (w : widget)
  | screen_raiseObject (w : widget)
  | screen_registerObject (s : screen) (w : widget)
  | screen_unregisterObject (w : widget)
  | label_draw (l : label) (box : Bool)
  | label_erase (l : label)
  | label_getBox (l : label)
  | label_getMessage (l : label)
  | label_move (l : label) (p : point) (o : move_options)
  | label_position (l : label)
  | label_set (l : label) (message : StringList) (box : Bool)
  | label_setBackgroundAttrib (l : label) (attrib : chtype)
  | label_setBackgroundColor (l : label) (color : String)
  | label_setBox (l : label) (box : Bool)
  | label_setBoxAttribute (l : label) (character : chtype)
  | label_setHorizontalChar (l : label) (character : chtype)
  | label_setLLChar (l : label) (character : chtype)
  | label_setLRChar (l : label) (character : chtype)
  | label_setMessage (l : label) (message : StringList)
  | label_setULChar (l : label) (character : chtype)
  | label_setURChar (l : label) (character : chtype)
  | label_setVerticalChar (l : label) (character : chtype)
  | label_wait (l : label) (key : chtype)
  | button_activate (b : button) (actions : Nat)
  | button_draw (b : button) (box : Bool)
  | button_erase (b : button)
  | button_getBox (b : button)
  | button_getMessage (b : button)
  | button_inject (b : button) (input : chtype)
  | button_set (b : button) (message : String) (box : Bool)
  | button_setBackgroundAttrib (b : button) (attrib : chtype)
  | button_setBackgroundColor (b : button) (color : String)
  | button_setBox (b : button) (box : Bool)
  | button_setBoxAttribute (b : button) (c : chtype)
  | button_setHorizontalChar (b : button) (c : chtype)
  | button_setLLChar (b : button) (c : chtype)
  | button_setLRChar (b : button) (c : chtype)
  | button_setMessage (b : button) (message : String)
  | button_setULChar (b : button) (c : chtype)
  | button_setURChar (b : button) (c : chtype)
  | button_setVerticalChar (b : button) (c : chtype)
  | button_move (b : button) (p : point) (o : move_options)
  | button_position (b : button)
  | entry_activate (e : text_entry) (actions : Nat)
  | entry_clean (e : text_entry)
  | entry_draw (e : text_entry) (box : Bool)
  | entry_erase (e : text_entry)
  | entry_getBox (e : text_entry)
  | entry_getFillerChar (e : text_entry)
  | entry_getHiddenChar (e : text_entry)
  | entry_getMax (e : text_entry)
  | entry_getMin (e : text_entry)
  | entry_getValue (e : text_entry)
  | entry_inject (e : text_entry) (input : chtype)
  | entry_move (e : text_entry) (p : point) (o : move_options)
  | entry_position (e : text_entry)
  | entry_set (e : text_entry) (value : String) (minimumLength maximumLength : Int) (box : Bool)
  | entry_setBackgroundAttrib (e : text_entry) (attrib : chtype)
  | entry_setBackgroundColor (e : text_entry) (color : String)
  | entry_setBox (e : text_entry) (box : Bool)
  | entry_setBoxAttribute (e : text_entry) (character : chtype)
  | entry_setCB (e : text_entry) (callBackFunction : Nat)
  | entry_setFillerChar (e : text_entry) (character : chtype)
  | entry_setHiddenChar (e : text_entry) (character : chtype)
  | entry_setHighlight (e : text_entry) (highlight : chtype) (cursor : Bool)
  | entry_setHorizontalChar (e : text_entry) (character : chtype)
  | entry_setLLChar (e : text_entry) (character : chtype)
  | entry_setLRChar (e : text_entry) (character : chtype)
  | entry_setMax (e : text_entry) (maximum : Int)
  | entry_setMin (e : text_entry) (minimum : Int)
  | entry_setPostProcess (e : text_entry) (callback dataPtr : Nat)
  | entry_setPreProcess (e : text_entry) (callback dataPtr : Nat)
  | entry_setULChar (e : text_entry) (character : chtype)
  | entry_setURChar (e : text_entry) (character : chtype)
  | entry_setValue (e : text_entry) (value : String)
  | entry_setVerticalChar (e : text_entry) (character : chtype)
  | alpha_activate (a : alpha_list) (actions : Nat)
  | alpha_draw (a : alpha_list) (box : Bool)
  | alpha_erase (a : alpha_list)
  | alpha_getBox (a : alpha_list)
  | alpha_getContents (a : alpha_list)
  | alpha_getCurrentItem (a : alpha_list)
  | alpha_getFillerChar (a : alpha_list)
  | alpha_getHighlight (a : alpha_list)
  | alpha_inject (a : alpha_list) (input : chtype)
  | alpha_move (a : alpha_list) (p : point) (o : move_options)
  | alpha_position (a : alpha_list)
  | alpha_set (a : alpha_list) (list : StringList) (fillerCharacter highlight : chtype) (box : Bool)
  | alpha_setBackgroundAttrib (a : alpha_list) (attrib : chtype)
  | alpha_setBackgroundColor (a : alpha_list) (color : String)
  | alpha_setBox (a : alpha_list) (box : Bool)
  | alpha_setBoxAttribute (a : alpha_list) (character : chtype)
  | alpha_setContents (a : alpha_list) (c : StringList)
  | alpha_setCurrentItem (a : alpha_list) (item : Int)
  | alpha_setFillerChar (a : alpha_list) (fillerCharacter : chtype)
  | alpha_setHighlight (a : alpha_list) (highlight : chtype)
  | alpha_setHorizontalChar (a : alpha_list) (character : chtype)
  | alpha_setLLChar (a : alpha_list) (character : chtype)
  | alpha_setLRChar (a : alpha_list) (character : chtype)
  | alpha_setPostProcess (a : alpha_list) (callback dataPtr : Nat)
  | alpha_setPreProcess (a : alpha_list) (callback dataPtr : Nat)
  | alpha_setULChar (a : alpha_list) (character : chtype)
  | alpha_setURChar (a : alpha_list) (character : chtype)
  | alpha_setVerticalChar (a : alpha_list) (character : chtype)
  | calendar_activate (c : calendar) (actions : Nat)
  | calendar_draw (c : calendar) (box : Bool)
  | calendar_erase (c : calendar)
  | calendar_getBox (c : calendar)
  | calendar_getDate (c : calendar)
  | calendar_getDayAttribute (c : calendar)
  | calendar_getHighlight (c : calendar)
  | calendar_getMarker (c : calendar) (d : date)
  | calendar_getMonthAttribute (c : calendar)
  | calendar_getYearAttribute (c : calendar)
  | calendar_inject (c : calendar) (input : chtype)
  | calendar_move (c : calendar) (p : point) (o : move_options)
  | calendar_position (c : calendar)
  | calendar_removeMarker (c : calendar) (d : date)
  | calendar_set (c : calendar) (d : date) (attr : date_attributes) (highlight : chtype) (box : Bool)
  | calendar_setBackgroundAttrib (c : calendar) (attrib : chtype)
  | calendar_setBackgroundColor (c : calendar) (color : String)
  | calendar_setBox (c : calendar) (box : Bool)
  | calendar_setBoxAttribute (c : calendar) (ch : chtype)
  | calendar_setDate (c : calendar) (d : date)
  | calendar_setDayAttribute (c : calendar) (attrib : chtype)
  | calendar_setDaysNames (c : calendar) (days : String)
  | calendar_setHighlight (c : calendar) (attrib : chtype)
  | calendar_setHorizontalChar (c : calendar) (ch : chtype)
  | calendar_setLLChar (c : calendar) (ch : chtype)
  | calendar_setLRChar (c : calendar) (ch : chtype)
  | calendar_setMarker (c : calendar) (d : date) (marker : chtype)
  | calendar_setMonthAttribute (c : calendar) (attrib : chtype)
  | calendar_setMonthsNames (c : calendar) (months : StringList)
  | calendar_setPostProcess (c : calendar) (callback dataPtr : Nat)
  | calendar_setPreProcess (c : calendar) (callback dataPtr : Nat)
  | calendar_setULChar (c : calendar) (ch : chtype)
  | calendar_setURChar (c : calendar) (ch : chtype)
  | calendar_setVerticalChar (c : calendar) (ch : chtype)
  | calendar_setYearAttribute (c : calendar) (attrib : chtype)

/-- Semantics of one method invocation: the toolkit calls performed, in order,
and the value the wrapper returns (unit for void methods), dispatching to the
per-method translations above. -/
def run (tk : Toolkit) : MethodCall → List Call × Arg
  | .screen_erase s => (screen.erase s, .unit)
  | .screen_refresh s => (screen.refresh s, .unit)
  | .screen_lowerObject w => (screen.lowerObject w, .unit)
  | .screen_raiseObject w => (screen.raiseObject w, .unit)
  | .screen_registerObject s w => (screen.registerObject s w, .unit)
  | .screen_unregisterObject w => (screen.unregisterObject w, .unit)
  | .label_draw l box => (label.draw l box, .unit)
  | .label_erase l => (label.erase l, .unit)
  | .label_getBox l => label.getBox tk l
  | .label_getMessage l => label.getMessage tk l
  | .label_move l p o => (label.move l p o, .unit)
  | .label_position l => (label.position l, .unit)
  | .label_set l message box => (label.set l message box, .unit)
  | .label_setBackgroundAttrib l a => (label.setBackgroundAttrib l a, .unit)
  | .label_setBackgroundColor l color => (label.setBackgroundColor l color, .unit)
  | .label_setBox l box => (label.setBox l box, .unit)
  | .label_setBoxAttribute l c => (label.setBoxAttribute l c, .unit)
  | .label_setHorizontalChar l c => (label.setHorizontalChar l c, .unit)
  | .label_setLLChar l c => (label.setLLChar l c, .unit)
  | .label_setLRChar l c => (label.setLRChar l c, .unit)
  | .label_setMessage l message => (label.setMessage l message, .unit)
  | .label_setULChar l c => (label.setULChar l c, .unit)
  | .label_setURChar l c => (label.setURChar l c, .unit)
  | .label_setVerticalChar l c => (label.setVerticalChar l c, .unit)
  | .label_wait l key => label.wait tk l key
  | .button_activate b actions => button.activate tk b actions
  | .button_draw b box => (button.draw b box, .unit)
  | .button_erase b => (button.erase b, .unit)
  | .button_getBox b => button.getBox tk b
  | .button_getMessage b => button.getMessage tk b
  | .button_inject b input => button.inject tk b input
  | .button_set b message box => (button.set b message box, .unit)
  | .button_setBackgroundAttrib b a => (button.setBackgroundAttrib b a, .unit)
  | .button_setBackgroundColor b color => (button.setBackgroundColor b color, .unit)
  | .button_setBox b box => (button.setBox b box, .unit)
  | .button_setBoxAttribute b c => (button.setBoxAttribute b c, .unit)
  | .button_setHorizontalChar b c => (button.setHorizontalChar b c, .unit)
  | .button_setLLChar b c => (button.setLLChar b c, .unit)
  | .button_setLRChar b c => (button.setLRChar b c, .unit)
  | .button_setMessage b message => (button.setMessage b message, .unit)
  | .button_setULChar b c => (button.setULChar b c, .unit)
  | .button_setURChar b c => (button.setURChar b c, .unit)
  | .button_setVerticalChar b c => (button.setVerticalChar b c, .unit)
  | .button_move b p o => (button.move b p o, .unit)
  | .button_position b => (button.position b, .unit)
  | .entry_activate e actions => text_entry.activate tk e actions
  | .entry_clean e => (text_entry.clean e, .unit)
  | .entry_draw e box => (text_entry.draw e box, .unit)
  | .entry_erase e => (text_entry.erase e, .unit)
  | .entry_getBox e => text_entry.getBox tk e
  | .entry_getFillerChar e => text_entry.getFillerChar tk e
  | .entry_getHiddenChar e => text_entry.getHiddenChar tk e
  | .entry_getMax e => text_entry.getMax tk e
  | .entry_getMin e => text_entry.getMin tk e
  | .entry_getValue e => text_entry.getValue tk e
  | .entry_inject e input => text_entry.inject tk e input
  | .entry_move e p o => (text_entry.move e p o, .unit)
  | .entry_position e => (text_entry.position e, .unit)
  | .entry_set e value mn mx box => (text_entry.set e value mn mx box, .unit)
  | .entry_setBackgroundAttrib e a => (text_entry.setBackgroundAttrib e a, .unit)
  | .entry_setBackgroundColor e color => (text_entry.setBackgroundColor e color, .unit)
  | .entry_setBox e box => (text_entry.setBox e box, .unit)
  | .entry_setBoxAttribute e c => (text_entry.setBoxAttribute e c, .unit)
  | .entry_setCB e cb => (text_entry.setCB e cb, .unit)
  | .entry_setFillerChar e c => (text_entry.setFillerChar e c, .unit)
  | .entry_setHiddenChar e c => (text_entry.setHiddenChar e c, .unit)
  | .entry_setHighlight e hl cursor => (text_entry.setHighlight e hl cursor, .unit)
  | .entry_setHorizontalChar e c => (text_entry.setHorizontalChar e c, .unit)
  | .entry_setLLChar e c => (text_entry.setLLChar e c, .unit)
  | .entry_setLRChar e c => (text_entry.setLRChar e c, .unit)
  | .entry_setMax e m => (text_entry.setMax e m, .unit)
  | .entry_setMin e m => (text_entry.setMin e m, .unit)
  | .entry_setPostProcess e cb dataPtr => (text_entry.setPostProcess e cb dataPtr, .unit)
  | .entry_setPreProcess e cb dataPtr => (text_entry.setPreProcess e cb dataPtr, .unit)
  | .entry_setULChar e c => (text_entry.setULChar e c, .unit)
  | .entry_setURChar e c => (text_entry.setURChar e c, .unit)
  | .entry_setValue e value => (text_entry.setValue e value, .unit)
  | .entry_setVerticalChar e c => (text_entry.setVerticalChar e c, .unit)
  | .alpha_activate a actions => alpha_list.activate tk a actions
  | .alpha_draw a box => (alpha_list.draw a box, .unit)
  | .alpha_erase a => (alpha_list.erase a, .unit)
  | .alpha_getBox a => alpha_list.getBox tk a
  | .alpha_getContents a => alpha_list.getContents tk a
  | .alpha_getCurrentItem a => alpha_list.getCurrentItem tk a
  | .alpha_getFillerChar a => alpha_list.getFillerChar tk a
  | .alpha_getHighlight a => alpha_list.getHighlight tk a
  | .alpha_inject a input => alpha_list.inject tk a input
  | .alpha_move a p o => (alpha_list.move a p o, .unit)
  | .alpha_position a => (alpha_list.position a, .unit)
  | .alpha_set a list fc hl box => (alpha_list.set a list fc hl box, .unit)
  | .alpha_setBackgroundAttrib a x => (alpha_list.setBackgroundAttrib a x, .unit)
  | .alpha_setBackgroundColor a color => (alpha_list.setBackgroundColor a color, .unit)
  | .alpha_setBox a box => (alpha_list.setBox a box, .unit)
  | .alpha_setBoxAttribute a c => (alpha_list.setBoxAttribute a c, .unit)
  | .alpha_setContents a c => (alpha_list.setContents a c, .unit)
  | .alpha_setCurrentItem a item => (alpha_list.setCurrentItem a item, .unit)
  | .alpha_setFillerChar a fc => (alpha_list.setFillerChar a fc, .unit)
  | .alpha_setHighlight a hl => (alpha_list.setHighlight a hl, .unit)
  | .alpha_setHorizontalChar a c => (alpha_list.setHorizontalChar a c, .unit)
  | .alpha_setLLChar a c => (alpha_list.setLLChar a c, .unit)
  | .alpha_setLRChar a c => (alpha_list.setLRChar a c, .unit)
  | .alpha_setPostProcess a cb dataPtr => (alpha_list.setPostProcess a cb dataPtr, .unit)
  | .alpha_setPreProcess a cb dataPtr => (alpha_list.setPreProcess a cb dataPtr, .unit)
  | .alpha_setULChar a c => (alpha_list.setULChar a c, .unit)
  | .alpha_setURChar a c => (alpha_list.setURChar a c, .unit)
  | .alpha_setVerticalChar a c => (alpha_list.setVerticalChar a c, .unit)
  | .calendar_activate c actions => calendar.activate tk c actions
  | .calendar_draw c box => (calendar.draw c box, .unit)
  | .calendar_erase c => (calendar.erase c, .unit)
  | .calendar_getBox c => calendar.getBox tk c
  | .calendar_getDate c => calendar.getDate tk c
  | .calendar_getDayAttribute c => calendar.getDayAttribute tk c
  | .calendar_getHighlight c => calendar.getHighlight tk c
  | .calendar_getMarker c d => calendar.getMarker tk c d
  | .calendar_getMonthAttribute c => calendar.getMonthAttribute tk c
  | .calendar_getYearAttribute c => calendar.getYearAttribute tk c
  | .calendar_inject c input => calendar.inject tk c input
  | .calendar_move c p o => (calendar.move c p o, .unit)
  | .calendar_position c => (calendar.position c, .unit)
  | .calendar_removeMarker c d => (calendar.removeMarker c d, .unit)
  | .calendar_set c d attr hl box => (calendar.set c d attr hl box, .unit)
  | .calendar_setBackgroundAttrib c a => (calendar.setBackgroundAttrib c a, .unit)
  | .calendar_setBackgroundColor c color => (calendar.setBackgroundColor c color, .unit)
  | .calendar_setBox c box => (calendar.setBox c box, .unit)
  | .calendar_setBoxAttribute c ch => (calendar.setBoxAttribute c ch, .unit)
  | .calendar_setDate c d => (calendar.setDate c d, .unit)
  | .calendar_setDayAttribute c a => (calendar.setDayAttribute c a, .unit)
  | .calendar_setDaysNames c days => (calendar.setDaysNames c days, .unit)
  | .calendar_setHighlight c a => (calendar.setHighlight c a, .unit)
  | .calendar_setHorizontalChar c ch => (calendar.setHorizontalChar c ch, .unit)
  | .calendar_setLLChar c ch => (calendar.setLLChar c ch, .unit)
  | .calendar_setLRChar c ch => (calendar.setLRChar c ch, .unit)
  | .calendar_setMarker c d marker => (calendar.setMarker c d marker, .unit)
  | .calendar_setMonthAttribute c a => (calendar.setMonthAttribute c a, .unit)
  | .calendar_setMonthsNames c months => (calendar.setMonthsNames c months, .unit)
  | .calendar_setPostProcess c cb dataPtr => (calendar.setPostProcess c cb dataPtr, .unit)
  | .calendar_setPreProcess c cb dataPtr => (calendar.setPreProcess c cb dataPtr, .unit)
  | .calendar_setULChar c ch => (calendar.setULChar c ch, .unit)
  | .calendar_setURChar c ch => (calendar.setURChar c ch, .unit)
  | .calendar_setVerticalChar c ch => (calendar.setVerticalChar c ch, .unit)
  | .calendar_setYearAttribute c a => (calendar.setYearAttribute c a, .unit)

/-- Written from the spec's words, not from the method bodies: the single
corresponding toolkit entry point each method is said to forward to, with the
caller's parameters unchanged and in the toolkit's declared order, the only
transformations being the unpacking of the parameter structs (point,
drawing_options, move_options, date, date_attributes, widget_size) and
string-array marshalling (an owned string sequence is passed as the marshalled
pointer array together with its element count, except where the toolkit takes
no count). -/
def specCall : MethodCall → Call
  | .screen_erase s => ⟨.eraseCDKScreen, [.ptr s.ptr]⟩
  | .screen_refresh s => ⟨.refreshCDKScreen, [.ptr s.ptr]⟩
  | .screen_lowerObject w => ⟨.lowerCDKObject, [.ty w.type, .ptr w.vptr]⟩
  | .screen_raiseObject w => ⟨.raiseCDKObject, [.ty w.type, .ptr w.vptr]⟩
  | .screen_registerObject s w => ⟨.registerCDKObject, [.ptr s.ptr, .ty w.type, .ptr w.vptr]⟩
  | .screen_unregisterObject w => ⟨.unregisterCDKObject, [.ty w.type, .ptr w.vptr]⟩
  | .label_draw l box => ⟨.drawCDKLabel, [.ptr l.ptr, .bool box]⟩
  | .label_erase l => ⟨.eraseCDKLabel, [.ptr l.ptr]⟩
  | .label_getBox l => ⟨.getCDKLabelBox, [.ptr l.ptr]⟩
  | .label_getMessage l => ⟨.getCDKLabelMessage, [.ptr l.ptr]⟩
  | .label_move l p o => ⟨.moveCDKLabel, [.ptr l.ptr, .int p.x, .int p.y, .bool o.relative, .bool o.refresh]⟩
  | .label_position l => ⟨.positionCDKLabel, [.ptr l.ptr]⟩
  | .label_set l message box => ⟨.setCDKLabel, [.ptr l.ptr, .strL message, .int (message.length : Int), .bool box]⟩
  | .label_setBackgroundAttrib l a => ⟨.setCDKLabelBackgroundAttrib, [.ptr l.ptr, .ch a]⟩
  | .label_setBackgroundColor l color => ⟨.setCDKLabelBackgroundColor, [.ptr l.ptr, .str color]⟩
  | .label_setBox l box => ⟨.setCDKLabelBox, [.ptr l.ptr, .bool box]⟩
  | .label_setBoxAttribute l c => ⟨.setCDKLabelBoxAttribute, [.ptr l.ptr, .ch c]⟩
  | .label_setHorizontalChar l c => ⟨.setCDKLabelHorizontalChar, [.ptr l.ptr, .ch c]⟩
  | .label_setLLChar l c => ⟨.setCDKLabelLLChar, [.ptr l.ptr, .ch c]⟩
  | .label_setLRChar l c => ⟨.setCDKLabelLRChar, [.ptr l.ptr, .ch c]⟩
  | .label_setMessage l message => ⟨.setCDKLabelMessage, [.ptr l.ptr, .strL message, .int (message.length : Int)]⟩
  | .label_setULChar l c => ⟨.setCDKLabelULChar, [.ptr l.ptr, .ch c]⟩
  | .label_setURChar l c => ⟨.setCDKLabelURChar, [.ptr l.ptr, .ch c]⟩
  | .label_setVerticalChar l c => ⟨.setCDKLabelVerticalChar, [.ptr l.ptr, .ch c]⟩
  | .label_wait l key => ⟨.waitCDKLabel, [.ptr l.ptr, .ch key]⟩
  | .button_activate b actions => ⟨.activateCDKButton, [.ptr b.ptr, .ptr actions]⟩
  | .button_draw b box => ⟨.drawCDKButton, [.ptr b.ptr, .bool box]⟩
  | .button_erase b => ⟨.eraseCDKButton, [.ptr b.ptr]⟩
  | .button_getBox b => ⟨.getCDKButtonBox, [.ptr b.ptr]⟩
  | .button_getMessage b => ⟨.getCDKButtonMessage, [.ptr b.ptr]⟩
  | .button_inject b input => ⟨.injectCDKButtonbox, [.ptr b.ptr, .ch input]⟩
  | .button_set b message box => ⟨.setCDKButton, [.ptr b.ptr, .str message, .bool box]⟩
  | .button_setBackgroundAttrib b a => ⟨.setCDKButtonBackgroundAttrib, [.ptr b.ptr, .ch a]⟩
  | .button_setBackgroundColor b color => ⟨.setCDKButtonBackgroundColor, [.ptr b.ptr, .str color]⟩
  | .button_setBox b box => ⟨.setCDKButtonBox, [.ptr b.ptr, .bool box]⟩
  | .button_setBoxAttribute b c => ⟨.setCDKButtonBoxAttribute, [.ptr b.ptr, .ch c]⟩
  | .button_setHorizontalChar b c => ⟨.setCDKButtonHorizontalChar, [.ptr b.ptr, .ch c]⟩
  | .button_setLLChar b c => ⟨.setCDKButtonLLChar, [.ptr b.ptr, .ch c]⟩
  | .button_setLRChar b c => ⟨.setCDKButtonLRChar, [.ptr b.ptr, .ch c]⟩
  | .button_setMessage b message => ⟨.setCDKButtonMessage, [.ptr b.ptr, .str message]⟩
  | .button_setULChar b c => ⟨.setCDKButtonULChar, [.ptr b.ptr, .ch c]⟩
  | .button_setURChar b c => ⟨.setCDKButtonURChar, [.ptr b.ptr, .ch c]⟩
  | .button_setVerticalChar b c => ⟨.setCDKButtonVerticalChar, [.ptr b.ptr, .ch c]⟩
  | .button_move b p o => ⟨.moveCDKButton, [.ptr b.ptr, .int p.x, .int p.y, .bool o.relative, .bool o.refresh]⟩
  | .button_position b => ⟨.positionCDKButton, [.ptr b.ptr]⟩
  | .entry_activate e actions => ⟨.activateCDKEntry, [.ptr e.ptr, .ptr actions]⟩
  | .entry_clean e => ⟨.cleanCDKEntry, [.ptr e.ptr]⟩
  | .entry_draw e box => ⟨.drawCDKEntry, [.ptr e.ptr, .bool box]⟩
  | .entry_erase e => ⟨.eraseCDKEntry, [.ptr e.ptr]⟩
  | .entry_getBox e => ⟨.getCDKEntryBox, [.ptr e.ptr]⟩
  | .entry_getFillerChar e => ⟨.getCDKEntryFillerChar, [.ptr e.ptr]⟩
  | .entry_getHiddenChar e => ⟨.getCDKEntryHiddenChar, [.ptr e.ptr]⟩
  | .entry_getMax e => ⟨.getCDKEntryMax, [.ptr e.ptr]⟩
  | .entry_getMin e => ⟨.getCDKEntryMin, [.ptr e.ptr]⟩
  | .entry_getValue e => ⟨.getCDKEntryValue, [.ptr e.ptr]⟩
  | .entry_inject e input => ⟨.injectCDKEntry, [.ptr e.ptr, .ch input]⟩
  | .entry_move e p o => ⟨.moveCDKEntry, [.ptr e.ptr, .int p.x, .int p.y, .bool o.relative, .bool o.refresh]⟩
  | .entry_position e => ⟨.positionCDKEntry, [.ptr e.ptr]⟩
  | .entry_set e value mn mx box => ⟨.setCDKEntry, [.ptr e.ptr, .str value, .int mn, .int mx, .bool box]⟩
  | .entry_setBackgroundAttrib e a => ⟨.setCDKEntryBackgroundAttrib, [.ptr e.ptr, .ch a]⟩
  | .entry_setBackgroundColor e color => ⟨.setCDKEntryBackgroundColor, [.ptr e.ptr, .str color]⟩
  | .entry_setBox e box => ⟨.setCDKEntryBox, [.ptr e.ptr, .bool box]⟩
  | .entry_setBoxAttribute e c => ⟨.setCDKEntryBoxAttribute, [.ptr e.ptr, .ch c]⟩
  | .entry_setCB e cb => ⟨.setCDKEntryCB, [.ptr e.ptr, .fn cb]⟩
  | .entry_setFillerChar e c => ⟨.setCDKEntryFillerChar, [.ptr e.ptr, .ch c]⟩
  | .entry_setHiddenChar e c => ⟨.setCDKEntryHiddenChar, [.ptr e.ptr, .ch c]⟩
  | .entry_setHighlight e hl cursor => ⟨.setCDKEntryHighlight, [.ptr e.ptr, .ch hl, .bool cursor]⟩
  | .entry_setHorizontalChar e c => ⟨.setCDKEntryHorizontalChar, [.ptr e.ptr, .ch c]⟩
  | .entry_setLLChar e c => ⟨.setCDKEntryLLChar, [.ptr e.ptr, .ch c]⟩
  | .entry_setLRChar e c => ⟨.setCDKEntryLRChar, [.ptr e.ptr, .ch c]⟩
  | .entry_setMax e m => ⟨.setCDKEntryMax, [.ptr e.ptr, .int m]⟩
  | .entry_setMin e m => ⟨.setCDKEntryMin, [.ptr e.ptr, .int m]⟩
  | .entry_setPostProcess e cb dataPtr => ⟨.setCDKEntryPostProcess, [.ptr e.ptr, .fn cb, .ptr dataPtr]⟩
  | .entry_setPreProcess e cb dataPtr => ⟨.setCDKEntryPreProcess, [.ptr e.ptr, .fn cb, .ptr dataPtr]⟩
  | .entry_setULChar e c => ⟨.setCDKEntryULChar, [.ptr e.ptr, .ch c]⟩
  | .entry_setURChar e c => ⟨.setCDKEntryURChar, [.ptr e.ptr, .ch c]⟩
  | .entry_setValue e value => ⟨.setCDKEntryValue, [.ptr e.ptr, .str value]⟩
  | .entry_setVerticalChar e c => ⟨.setCDKEntryVerticalChar, [.ptr e.ptr, .ch c]⟩
  | .alpha_activate a actions => ⟨.activateCDKAlphalist, [.ptr a.ptr, .ptr actions]⟩
  | .alpha_draw a box => ⟨.drawCDKAlphalist, [.ptr a.ptr, .bool box]⟩
  | .alpha_erase a => ⟨.eraseCDKAlphalist, [.ptr a.ptr]⟩
  | .alpha_getBox a => ⟨.getCDKAlphalistBox, [.ptr a.ptr]⟩
  | .alpha_getContents a => ⟨.getCDKAlphalistContents, [.ptr a.ptr]⟩
  | .alpha_getCurrentItem a => ⟨.getCDKAlphalistCurrentItem, [.ptr a.ptr]⟩
  | .alpha_getFillerChar a => ⟨.getCDKAlphalistFillerChar, [.ptr a.ptr]⟩
  | .alpha_getHighlight a => ⟨.getCDKAlphalistHighlight, [.ptr a.ptr]⟩
  | .alpha_inject a input => ⟨.injectCDKAlphalist, [.ptr a.ptr, .ch input]⟩
  | .alpha_move a p o => ⟨.moveCDKAlphalist, [.ptr a.ptr, .int p.x, .int p.y, .bool o.relative, .bool o.refresh]⟩
  | .alpha_position a => ⟨.positionCDKAlphalist, [.ptr a.ptr]⟩
  | .alpha_set a list fc hl box => ⟨.setCDKAlphalist, [.ptr a.ptr, .strL list, .int (list.length : Int), .ch fc, .ch hl, .bool box]⟩
  | .alpha_setBackgroundAttrib a x => ⟨.setCDKAlphalistBackgroundAttrib, [.ptr a.ptr, .ch x]⟩
  | .alpha_setBackgroundColor a color => ⟨.setCDKAlphalistBackgroundColor, [.ptr a.ptr, .str color]⟩
  | .alpha_setBox a box => ⟨.setCDKAlphalistBox, [.ptr a.ptr, .bool box]⟩
  | .alpha_setBoxAttribute a c => ⟨.setCDKAlphalistBoxAttribute, [.ptr a.ptr, .ch c]⟩
  | .alpha_setContents a c => ⟨.setCDKAlphalistContents, [.ptr a.ptr, .strL c, .int (c.length : Int)]⟩
  | .alpha_setCurrentItem a item => ⟨.setCDKAlphalistCurrentItem, [.ptr a.ptr, .int item]⟩
  | .alpha_setFillerChar a fc => ⟨.setCDKAlphalistFillerChar, [.ptr a.ptr, .ch fc]⟩
  | .alpha_setHighlight a hl => ⟨.setCDKAlphalistHighlight, [.ptr a.ptr, .ch hl]⟩
  | .alpha_setHorizontalChar a c => ⟨.setCDKAlphalistHorizontalChar, [.ptr a.ptr, .ch c]⟩
  | .alpha_setLLChar a c => ⟨.setCDKAlphalistLLChar, [.ptr a.ptr, .ch c]⟩
  | .alpha_setLRChar a c => ⟨.setCDKAlphalistLRChar, [.ptr a.ptr, .ch c]⟩
  | .alpha_setPostProcess a cb dataPtr => ⟨.setCDKAlphalistPostProcess, [.ptr a.ptr, .fn cb, .ptr dataPtr]⟩
  | .alpha_setPreProcess a cb dataPtr => ⟨.setCDKAlphalistPreProcess, [.ptr a.ptr, .fn cb, .ptr dataPtr]⟩
  | .alpha_setULChar a c => ⟨.setCDKAlphalistULChar, [.ptr a.ptr, .ch c]⟩
  | .alpha_setURChar a c => ⟨.setCDKAlphalistURChar, [.ptr a.ptr, .ch c]⟩
  | .alpha_setVerticalChar a c => ⟨.setCDKAlphalistVerticalChar, [.ptr a.ptr, .ch c]⟩
  | .calendar_activate c actions => ⟨.activateCDKCalendar, [.ptr c.ptr, .ptr actions]⟩
  | .calendar_draw c box => ⟨.drawCDKCalendar, [.ptr c.ptr, .bool box]⟩
  | .calendar_erase c => ⟨.eraseCDKCalendar, [.ptr c.ptr]⟩
  | .calendar_getBox c => ⟨.getCDKCalendarBox, [.ptr c.ptr]⟩
  | .calendar_getDate c => ⟨.getCDKCalendarDate, [.ptr c.ptr]⟩
  | .calendar_getDayAttribute c => ⟨.getCDKCalendarDayAttribute, [.ptr c.ptr]⟩
  | .calendar_getHighlight c => ⟨.getCDKCalendarHighlight, [.ptr c.ptr]⟩
  | .calendar_getMarker c d => ⟨.getCDKCalendarMarker, [.ptr c.ptr, .int d.day, .int d.month, .int d.year]⟩
  | .calendar_getMonthAttribute c => ⟨.getCDKCalendarMonthAttribute, [.ptr c.ptr]⟩
  | .calendar_getYearAttribute c => ⟨.getCDKCalendarYearAttribute, [.ptr c.ptr]⟩
  | .calendar_inject c input => ⟨.injectCDKCalendar, [.ptr c.ptr, .ch input]⟩
  | .calendar_move c p o => ⟨.moveCDKCalendar, [.ptr c.ptr, .int p.x, .int p.y, .bool o.relative, .bool o.refresh]⟩
  | .calendar_position c => ⟨.positionCDKCalendar, [.ptr c.ptr]⟩
  | .calendar_removeMarker c d => ⟨.removeCDKCalendarMarker, [.ptr c.ptr, .int d.day, .int d.month, .int d.year]⟩
  | .calendar_set c d attr hl box => ⟨.setCDKCalendar, [.ptr c.ptr, .int d.day, .int d.month, .int d.year, .ch attr.day, .ch attr.month, .ch attr.year, .ch hl, .bool box]⟩
  | .calendar_setBackgroundAttrib c a => ⟨.setCDKCalendarBackgroundAttrib, [.ptr c.ptr, .ch a]⟩
  | .calendar_setBackgroundColor c color => ⟨.setCDKCalendarBackgroundColor, [.ptr c.ptr, .str color]⟩
  | .calendar_setBox c box => ⟨.setCDKCalendarBox, [.ptr c.ptr, .bool box]⟩
  | .calendar_setBoxAttribute c ch => ⟨.setCDKCalendarBoxAttribute, [.ptr c.ptr, .ch ch]⟩
  | .calendar_setDate c d => ⟨.setCDKCalendarDate, [.ptr c.ptr, .int d.day, .int d.month, .int d.year]⟩
  | .calendar_setDayAttribute c a => ⟨.setCDKCalendarDayAttribute, [.ptr c.ptr, .ch a]⟩
  | .calendar_setDaysNames c days => ⟨.setCDKCalendarDaysNames, [.ptr c.ptr, .str days]⟩
  | .calendar_setHighlight c a => ⟨.setCDKCalendarHighlight, [.ptr c.ptr, .ch a]⟩
  | .calendar_setHorizontalChar c ch => ⟨.setCDKCalendarHorizontalChar, [.ptr c.ptr, .ch ch]⟩
  | .calendar_setLLChar c ch => ⟨.setCDKCalendarLLChar, [.ptr c.ptr, .ch ch]⟩
  | .calendar_setLRChar c ch => ⟨.setCDKCalendarLRChar, [.ptr c.ptr, .ch ch]⟩
  | .calendar_setMarker c d marker => ⟨.setCDKCalendarMarker, [.ptr c.ptr, .int d.day, .int d.month, .int d.year, .ch marker]⟩
  | .calendar_setMonthAttribute c a => ⟨.setCDKCalendarMonthAttribute, [.ptr c.ptr, .ch a]⟩
  | .calendar_setMonthsNames c months => ⟨.setCDKCalendarMonthsNames, [.ptr c.ptr, .strL months]⟩
  | .calendar_setPostProcess c cb dataPtr => ⟨.setCDKCalendarPostProcess, [.ptr c.ptr, .fn cb, .ptr dataPtr]⟩
  | .calendar_setPreProcess c cb dataPtr => ⟨.setCDKCalendarPreProcess, [.ptr c.ptr, .fn cb, .ptr dataPtr]⟩
  | .calendar_setULChar c ch => ⟨.setCDKCalendarULChar, [.ptr c.ptr, .ch ch]⟩
  | .calendar_setURChar c ch => ⟨.setCDKCalendarURChar, [.ptr c.ptr, .ch ch]⟩
  | .calendar_setVerticalChar c ch => ⟨.setCDKCalendarVerticalChar, [.ptr c.ptr, .ch ch]⟩
  | .calendar_setYearAttribute c a => ⟨.setCDKCalendarYearAttribute, [.ptr c.ptr, .ch a]⟩

/-- The toolkit entry points that release a native handle. -/
def isDestroy : EntryPoint → Bool
  | .destroyCDKScreen => true
  | .destroyCDKLabel => true
  | .destroyCDKButton => true
  | .destroyCDKEntry => true
  | .destroyCDKAlphalist => true
  | .destroyCDKCalendar => true
  | _ => false

/-- Number of calls to a given entry point in a trace. -/
def countEP (e : EntryPoint) (cs : List Call) : Nat :=
  cs.countP (fun c => decide (c.ep = e))

/-- The toolkit calls performed by a sequence of method invocations, in order. -/
def methodTrace (tk : Toolkit) (ms : List MethodCall) : List Call :=
  (ms.map (fun m => (run tk m).1)).flatten

/-- The process state after a sequence of screen constructions (each given as
the curses window and the pointer initCDKScreen returns). -/
def constructMany (ws : List (Nat × Nat)) (ps : ProcState) : ProcState :=
  ws.foldl (fun q wh => (screen.construct wh.1 wh.2 q).2.1) ps

/-- A concrete toolkit oracle, used to instantiate universally quantified
statements at concrete inputs. -/
def tk0 : Toolkit := ⟨fun _ => .unit⟩

lemma transformStringList_eq (v : StringList) : transformStringList v = v :=
  List.map_id' v

lemma countEP_append (e : EntryPoint) (l1 l2 : List Call) :
    countEP e (l1 ++ l2) = countEP e l1 + countEP e l2 := by
  simp [countEP, List.countP_append]

/-- No method of any class performs a handle-releasing toolkit call. -/
lemma run_no_destroy (tk : Toolkit) (m : MethodCall) :
    ∀ c ∈ (run tk m).1, isDestroy c.ep = false := by
  cases m <;> simp [run, screen.erase, screen.refresh, screen.lowerObject,
    screen.raiseObject, screen.registerObject, screen.unregisterObject,
    label.draw, label.erase, label.getBox, label.getMessage, label.move,
    label.position, label.set, label.setBackgroundAttrib,
    label.setBackgroundColor, label.setBox, label.setBoxAttribute,
    label.setHorizontalChar, label.setLLChar, label.setLRChar,
    label.setMessage, label.setULChar, label.setURChar, label.setVerticalChar,
    label.wait, button.activate, button.draw, button.erase, button.getBox,
    button.getMessage, button.inject, button.set, button.setBackgroundAttrib,
    button.setBackgroundColor, button.setBox, button.setBoxAttribute,
    button.setHorizontalChar, button.setLLChar, button.setLRChar,
    button.setMessage, button.setULChar, button.setURChar,
    button.setVerticalChar, button.move, button.position, text_entry.activate,
    text_entry.clean, text_entry.draw, text_entry.erase, text_entry.getBox,
    text_entry.getFillerChar, text_entry.getHiddenChar, text_entry.getMax,
    text_entry.getMin, text_entry.getValue, text_entry.inject, text_entry.move,
    text_entry.position, text_entry.set, text_entry.setBackgroundAttrib,
    text_entry.setBackgroundColor, text_entry.setBox,
    text_entry.setBoxAttribute, text_entry.setCB, text_entry.setFillerChar,
    text_entry.setHiddenChar, text_entry.setHighlight,
    text_entry.setHorizontalChar, text_entry.setLLChar, text_entry.setLRChar,
    text_entry.setMax, text_entry.setMin, text_entry.setPostProcess,
    text_entry.setPreProcess, text_entry.setULChar, text_entry.setURChar,
    text_entry.setValue, text_entry.setVerticalChar, alpha_list.activate,
    alpha_list.draw, alpha_list.erase, alpha_list.getBox,
    alpha_list.getContents, alpha_list.getCurrentItem,
    alpha_list.getFillerChar, alpha_list.getHighlight, alpha_list.inject,
    alpha_list.move, alpha_list.position, alpha_list.set,
    alpha_list.setBackgroundAttrib, alpha_list.setBackgroundColor,
    alpha_list.setBox, alpha_list.setBoxAttribute, alpha_list.setContents,
    alpha_list.setCurrentItem, alpha_list.setFillerChar,
    alpha_list.setHighlight, alpha_list.setHorizontalChar,
    alpha_list.setLLChar, alpha_list.setLRChar, alpha_list.setPostProcess,
    alpha_list.setPreProcess, alpha_list.setULChar, alpha_list.setURChar,
    alpha_list.setVerticalChar, calendar.activate, calendar.draw,
    calendar.erase, calendar.getBox, calendar.getDate,
    calendar.getDayAttribute, calendar.getHighlight, calendar.getMarker,
    calendar.getMonthAttribute, calendar.getYearAttribute, calendar.inject,
    calendar.move, calendar.position, calendar.removeMarker, calendar.set,
    calendar.setBackgroundAttrib, calendar.setBackgroundColor,
    calendar.setBox, calendar.setBoxAttribute, calendar.setDate,
    calendar.setDayAttribute, calendar.setDaysNames, calendar.setHighlight,
    calendar.setHorizontalChar, calendar.setLLChar, calendar.setLRChar,
    calendar.setMarker, calendar.setMonthAttribute, calendar.setMonthsNames,
    calendar.setPostProcess, calendar.setPreProcess, calendar.setULChar,
    calendar.setURChar, calendar.setVerticalChar, calendar.setYearAttribute,
    isDestroy]

lemma countEP_eq_zero_of_no_destroy (e : EntryPoint) (l : List Call)
    (hl : ∀ c ∈ l, isDestroy c.ep = false) (he : isDestroy e = true) :
    countEP e l = 0 := by
  unfold countEP
  rw [List.countP_eq_zero]
  intro c hc
  have hc2 : isDestroy c.ep = false := hl c hc
  simp only [decide_eq_true_eq]
  intro hq
  rw [hq, he] at hc2
  exact Bool.noConfusion hc2

lemma methodTrace_no_destroy (tk : Toolkit) (ms : List MethodCall) :
    ∀ c ∈ methodTrace tk ms, isDestroy c.ep = false := by
  intro c hc
  unfold methodTrace at hc
  rw [List.mem_flatten] at hc
  obtain ⟨l, hl, hcl⟩ := hc
  rw [List.mem_map] at hl
  obtain ⟨m, _, rfl⟩ := hl
  exact run_no_destroy tk m c hcl

lemma countEP_methodTrace (tk : Toolkit) (ms : List MethodCall)
    (e : EntryPoint) (he : isDestroy e = true) :
    countEP e (methodTrace tk ms) = 0 :=
  countEP_eq_zero_of_no_destroy e _ (methodTrace_no_destroy tk ms) he

lemma screen_construct_installed (win h : Nat) (ps : ProcState)
    (hp : ps.atexit_installed = true) :
    (screen.construct win h ps).2.1 = ps := by
  simp [screen.construct, hp]

lemma constructMany_installed (ws : List (Nat × Nat)) (ps : ProcState)
    (hp : ps.atexit_installed = true) :
    constructMany ws ps = ps := by
  induction ws generalizing ps with
  | nil => rfl
  | cons w rest ih =>
    unfold constructMany
    rw [List.foldl_cons]
    have hw : (screen.construct w.1 w.2 ps).2.1 = ps :=
      screen_construct_installed w.1 w.2 ps hp
    rw [hw]
    exact ih ps hp

end cdk

open cdk

/-- Claim C1 (code evaluation at the failing input): for widgets of every
concrete class, the type tag the screen object functions forward to the
toolkit's type+pointer calls is vNULL, not the tag of the concrete class,
because each class's own type member (vLABEL, vBUTTON, vENTRY, vALPHALIST,
vCALENDAR) shadows the inherited widget::type the functions read, and
widget::type is never assigned.  The second half of each conjunct shows the
shadowing member does hold the concrete tag. -/
theorem claim_C1_type_tag_vNULL :
    (screen.raiseObject (label.construct ⟨1⟩ ⟨2, 3⟩ ["m"] {} 5).1.base
        = [⟨.raiseCDKObject, [.ty .vNULL, .ptr 5]⟩]
      ∧ (label.construct ⟨1⟩ ⟨2, 3⟩ ["m"] {} 5).1.type = .vLABEL)
  ∧ screen.lowerObject (label.construct ⟨1⟩ ⟨2, 3⟩ ["m"] {} 5).1.base
      = [⟨.lowerCDKObject, [.ty .vNULL, .ptr 5]⟩]
  ∧ screen.registerObject ⟨1⟩ (label.construct ⟨1⟩ ⟨2, 3⟩ ["m"] {} 5).1.base
      = [⟨.registerCDKObject, [.ptr 1, .ty .vNULL, .ptr 5]⟩]
  ∧ screen.unregisterObject (label.construct ⟨1⟩ ⟨2, 3⟩ ["m"] {} 5).1.base
      = [⟨.unregisterCDKObject, [.ty .vNULL, .ptr 5]⟩]
  ∧ (screen.raiseObject (button.construct ⟨1⟩ ⟨0, 0⟩ "b" 0 {} 6).1.base
        = [⟨.raiseCDKObject, [.ty .vNULL, .ptr 6]⟩]
      ∧ (button.construct ⟨1⟩ ⟨0, 0⟩ "b" 0 {} 6).1.type = .vBUTTON)
  ∧ (screen.raiseObject
        (text_entry.construct ⟨1⟩ ⟨0, 0⟩ "t" "l" 0 0 0 10 0 10 {} 7).1.base
        = [⟨.raiseCDKObject, [.ty .vNULL, .ptr 7]⟩]
      ∧ (text_entry.construct ⟨1⟩ ⟨0, 0⟩ "t" "l" 0 0 0 10 0 10 {} 7).1.type = .vENTRY)
  ∧ (screen.raiseObject
        (alpha_list.construct ⟨1⟩ ⟨0, 0⟩ ⟨10, 12⟩ "t" "l" ["a"] 0 0 {} 8).1.base
        = [⟨.raiseCDKObject, [.ty .vNULL, .ptr 8]⟩]
      ∧ (alpha_list.construct ⟨1⟩ ⟨0, 0⟩ ⟨10, 12⟩ "t" "l" ["a"] 0 0 {} 8).1.type
          = .vALPHALIST)
  ∧ (screen.raiseObject
        (calendar.construct ⟨1⟩ ⟨0, 0⟩ "t" ⟨1, 1, 2000⟩ ⟨0, 0, 0⟩ 0 {} 9).1.base
        = [⟨.raiseCDKObject, [.ty .vNULL, .ptr 9]⟩]
      ∧ (calendar.construct ⟨1⟩ ⟨0, 0⟩ "t" ⟨1, 1, 2000⟩ ⟨0, 0, 0⟩ 0 {} 9).1.type
          = .vCALENDAR) := by
  decide

/-- Claim C3 (code evaluation at the failing input): the label, button,
text_entry and alpha_list constructors perform no destroyCDKScreen call, but
the calendar constructor, which takes its parent screen by value, destroys the
moved-in screen's native handle when it returns, and the caller's screen is
left with a null handle. -/
theorem claim_C3_calendar_destroys_parent_screen :
    countEP .destroyCDKScreen (label.construct ⟨1⟩ ⟨0, 0⟩ ["m"] {} 5).2 = 0
  ∧ countEP .destroyCDKScreen (button.construct ⟨1⟩ ⟨0, 0⟩ "b" 0 {} 6).2 = 0
  ∧ countEP .destroyCDKScreen
      (text_entry.construct ⟨1⟩ ⟨0, 0⟩ "t" "l" 0 0 0 10 0 10 {} 7).2 = 0
  ∧ countEP .destroyCDKScreen
      (alpha_list.construct ⟨1⟩ ⟨0, 0⟩ ⟨10, 12⟩ "t" "l" ["a"] 0 0 {} 8).2 = 0
  ∧ (⟨.destroyCDKScreen, [.ptr 1]⟩ : Call) ∈
      (calendar.construct ⟨1⟩ ⟨0, 0⟩ "t" ⟨1, 1, 2000⟩ ⟨0, 0, 0⟩ 0 {} 9).2.2
  ∧ (calendar.construct ⟨1⟩ ⟨0, 0⟩ "t" ⟨1, 1, 2000⟩ ⟨0, 0, 0⟩ 0 {} 9).2.1.ptr = 0 := by
  decide

/-- Claim C4 counterexample: after constructing a screen (window 7, handle 1)
from the initial process state and running its destructor, the performed
toolkit calls contain destroyCDKScreen on the handle but do NOT contain
endCDK, so the global teardown has not been performed at the moment the
destructor completes, contrary to the claim. -/
theorem claim_C4_counterexample :
    (⟨.endCDK, []⟩ : Call) ∉
      ((screen.construct 7 1 ProcState.init).2.2
        ++ screen.destruct (screen.construct 7 1 ProcState.init).1)
  ∧ (⟨.destroyCDKScreen, [.ptr 1]⟩ : Call) ∈
      ((screen.construct 7 1 ProcState.init).2.2
        ++ screen.destruct (screen.construct 7 1 ProcState.init).1) := by
  decide

/-- Claim C4 amended: a screen's destructor performs exactly destroyCDKScreen
on its (non-null) handle and no endCDK call; the global teardown endCDK is
registered as an atexit handler at (first) construction and is performed at
process exit, not at destruction. -/
theorem claim_C4_amended :
    ∀ (win h : Nat), h ≠ 0 →
      (screen.construct win h ProcState.init).2.2
          = [⟨.initCDKScreen, [.ptr win]⟩, ⟨.initCDKColor, []⟩]
      ∧ screen.destruct (screen.construct win h ProcState.init).1
          = [⟨.destroyCDKScreen, [.ptr h]⟩]
      ∧ (∀ c ∈ (screen.construct win h ProcState.init).2.2
            ++ screen.destruct (screen.construct win h ProcState.init).1,
          c.ep ≠ .endCDK)
      ∧ processExit (screen.construct win h ProcState.init).2.1
          = [⟨.endCDK, []⟩] := by
  intro win h hne
  have hd : screen.destruct (screen.construct win h ProcState.init).1
      = [⟨.destroyCDKScreen, [.ptr h]⟩] := by
    simp [screen.destruct, screen.construct, hne]
  refine ⟨rfl, hd, ?_, rfl⟩
  have h22 : (screen.construct win h ProcState.init).2.2
      = [⟨.initCDKScreen, [.ptr win]⟩, ⟨.initCDKColor, []⟩] := rfl
  intro c hc
  rw [hd, h22] at hc
  simp only [List.cons_append, List.nil_append, List.mem_cons,
    List.not_mem_nil, or_false] at hc
  rcases hc with rfl | rfl | rfl <;> simp

/-- Claim C4 amended, applied at the concrete run with window 7 and screen
handle 1. -/
theorem claim_C4_witness :
    screen.destruct (screen.construct 7 1 ProcState.init).1
        = [⟨.destroyCDKScreen, [.ptr 1]⟩]
  ∧ processExit (screen.construct 7 1 ProcState.init).2.1 = [⟨.endCDK, []⟩] :=
  ⟨(claim_C4_amended 7 1 (by decide)).2.1, (claim_C4_amended 7 1 (by decide)).2.2.2⟩

/-- Claim C5: every activation/injection wrapper (button::activate,
button::inject, text_entry::activate, text_entry::inject, alpha_list::inject,
calendar::activate, calendar::inject) performs exactly its single wrapped
toolkit call and returns exactly the value the toolkit returned for that call,
unchanged: whatever sentinel the oracle answers (-1, an escape marker, or any
other value) is the wrapper's result. -/
theorem claim_C5_activation_forwarding :
    (∀ (tk : Toolkit) (b : button) (actions : Nat),
      button.activate tk b actions
        = ([⟨.activateCDKButton, [.ptr b.ptr, .ptr actions]⟩],
           tk.ret ⟨.activateCDKButton, [.ptr b.ptr, .ptr actions]⟩))
  ∧ (∀ (tk : Toolkit) (b : button) (input : chtype),
      button.inject tk b input
        = ([⟨.injectCDKButtonbox, [.ptr b.ptr, .ch input]⟩],
           tk.ret ⟨.injectCDKButtonbox, [.ptr b.ptr, .ch input]⟩))
  ∧ (∀ (tk : Toolkit) (e : text_entry) (actions : Nat),
      text_entry.activate tk e actions
        = ([⟨.activateCDKEntry, [.ptr e.ptr, .ptr actions]⟩],
           tk.ret ⟨.activateCDKEntry, [.ptr e.ptr, .ptr actions]⟩))
  ∧ (∀ (tk : Toolkit) (e : text_entry) (input : chtype),
      text_entry.inject tk e input
        = ([⟨.injectCDKEntry, [.ptr e.ptr, .ch input]⟩],
           tk.ret ⟨.injectCDKEntry, [.ptr e.ptr, .ch input]⟩))
  ∧ (∀ (tk : Toolkit) (a : alpha_list) (input : chtype),
      alpha_list.inject tk a input
        = ([⟨.injectCDKAlphalist, [.ptr a.ptr, .ch input]⟩],
           tk.ret ⟨.injectCDKAlphalist, [.ptr a.ptr, .ch input]⟩))
  ∧ (∀ (tk : Toolkit) (c : calendar) (actions : Nat),
      calendar.activate tk c actions
        = ([⟨.activateCDKCalendar, [.ptr c.ptr, .ptr actions]⟩],
           tk.ret ⟨.activateCDKCalendar, [.ptr c.ptr, .ptr actions]⟩))
  ∧ (∀ (tk : Toolkit) (c : calendar) (input : chtype),
      calendar.inject tk c input
        = ([⟨.injectCDKCalendar, [.ptr c.ptr, .ch input]⟩],
           tk.ret ⟨.injectCDKCalendar, [.ptr c.ptr, .ch input]⟩)) := by
  refine ⟨?_, ?_, ?_, ?_, ?_, ?_, ?_⟩ <;> intros <;> rfl

/-- Claim C2: for each widget class, the lifetime trace of a successfully
constructed widget (handle h, non-null) consists of a construction part with
no call to the class's destroy entry point, any sequence of method invocations
with no call to it either, and a destruction part that is exactly one destroy
call on the widget's own handle; over the whole lifetime the destroy entry
point is called exactly once. -/
theorem claim_C2_destroy_exactly_once :
    (∀ (tk : Toolkit) (parent : screen) (p : point) (message : StringList)
        (opt : drawing_options) (h : Nat) (ms : List MethodCall), h ≠ 0 →
      countEP .destroyCDKLabel (label.construct parent p message opt h).2 = 0
      ∧ countEP .destroyCDKLabel (methodTrace tk ms) = 0
      ∧ label.destruct (label.construct parent p message opt h).1
          = [⟨.destroyCDKLabel, [.ptr h]⟩]
      ∧ countEP .destroyCDKLabel ((label.construct parent p message opt h).2
          ++ methodTrace tk ms
          ++ label.destruct (label.construct parent p message opt h).1) = 1)
  ∧ (∀ (tk : Toolkit) (s : screen) (p : point) (message : String) (cb : Nat)
        (o : drawing_options) (h : Nat) (ms : List MethodCall), h ≠ 0 →
      countEP .destroyCDKButton (button.construct s p message cb o h).2 = 0
      ∧ countEP .destroyCDKButton (methodTrace tk ms) = 0
      ∧ button.destruct (button.construct s p message cb o h).1
          = [⟨.destroyCDKButton, [.ptr h]⟩]
      ∧ countEP .destroyCDKButton ((button.construct s p message cb o h).2
          ++ methodTrace tk ms
          ++ button.destruct (button.construct s p message cb o h).1) = 1)
  ∧ (∀ (tk : Toolkit) (parent : screen) (p : point) (title lbl : String)
        (fa fc : chtype) (dt : Nat) (fw mn mx : Int) (o : drawing_options)
        (h : Nat) (ms : List MethodCall), h ≠ 0 →
      countEP .destroyCDKEntry
          (text_entry.construct parent p title lbl fa fc dt fw mn mx o h).2 = 0
      ∧ countEP .destroyCDKEntry (methodTrace tk ms) = 0
      ∧ text_entry.destruct
          (text_entry.construct parent p title lbl fa fc dt fw mn mx o h).1
          = [⟨.destroyCDKEntry, [.ptr h]⟩]
      ∧ countEP .destroyCDKEntry
          ((text_entry.construct parent p title lbl fa fc dt fw mn mx o h).2
            ++ methodTrace tk ms
            ++ text_entry.destruct
                (text_entry.construct parent p title lbl fa fc dt fw mn mx o h).1)
          = 1)
  ∧ (∀ (tk : Toolkit) (parent : screen) (p : point) (size : widget_size)
        (title lbl : String) (list : StringList) (fc hl : chtype)
        (o : drawing_options) (h : Nat) (ms : List MethodCall), h ≠ 0 →
      countEP .destroyCDKAlphalist
          (alpha_list.construct parent p size title lbl list fc hl o h).2 = 0
      ∧ countEP .destroyCDKAlphalist (methodTrace tk ms) = 0
      ∧ alpha_list.destruct
          (alpha_list.construct parent p size title lbl list fc hl o h).1
          = [⟨.destroyCDKAlphalist, [.ptr h]⟩]
      ∧ countEP .destroyCDKAlphalist
          ((alpha_list.construct parent p size title lbl list fc hl o h).2
            ++ methodTrace tk ms
            ++ alpha_list.destruct
                (alpha_list.construct parent p size title lbl list fc hl o h).1)
          = 1)
  ∧ (∀ (tk : Toolkit) (parent : screen) (p : point) (title : String) (d : date)
        (attr : date_attributes) (hl : chtype) (opt : drawing_options)
        (h : Nat) (ms : List MethodCall), h ≠ 0 →
      countEP .destroyCDKCalendar
          (calendar.construct parent p title d attr hl opt h).2.2 = 0
      ∧ countEP .destroyCDKCalendar (methodTrace tk ms) = 0
      ∧ calendar.destruct (calendar.construct parent p title d attr hl opt h).1
          = [⟨.destroyCDKCalendar, [.ptr h]⟩]
      ∧ countEP .destroyCDKCalendar
          ((calendar.construct parent p title d attr hl opt h).2.2
            ++ methodTrace tk ms
            ++ calendar.destruct
                (calendar.construct parent p title d attr hl opt h).1) = 1) := by
  refine ⟨?_, ?_, ?_, ?_, ?_⟩
  · intro tk parent p message opt h ms hne
    have h1 : countEP .destroyCDKLabel (label.construct parent p message opt h).2 = 0 := rfl
    have h2 : countEP .destroyCDKLabel (methodTrace tk ms) = 0 :=
      countEP_methodTrace tk ms .destroyCDKLabel rfl
    have h3 : label.destruct (label.construct parent p message opt h).1
        = [⟨.destroyCDKLabel, [.ptr h]⟩] := by
      simp [label.destruct, label.construct, hne]
    refine ⟨h1, h2, h3, ?_⟩
    rw [countEP_append, countEP_append, h1, h2, h3]
    rfl
  · intro tk s p message cb o h ms hne
    have h1 : countEP .destroyCDKButton (button.construct s p message cb o h).2 = 0 := rfl
    have h2 : countEP .destroyCDKButton (methodTrace tk ms) = 0 :=
      countEP_methodTrace tk ms .destroyCDKButton rfl
    have h3 : button.destruct (button.construct s p message cb o h).1
        = [⟨.destroyCDKButton, [.ptr h]⟩] := by
      simp [button.destruct, button.construct, hne]
    refine ⟨h1, h2, h3, ?_⟩
    rw [countEP_append, countEP_append, h1, h2, h3]
    rfl
  · intro tk parent p title lbl fa fc dt fw mn mx o h ms hne
    have h1 : countEP .destroyCDKEntry
        (text_entry.construct parent p title lbl fa fc dt fw mn mx o h).2 = 0 := rfl
    have h2 : countEP .destroyCDKEntry (methodTrace tk ms) = 0 :=
      countEP_methodTrace tk ms .destroyCDKEntry rfl
    have h3 : text_entry.destruct
        (text_entry.construct parent p title lbl fa fc dt fw mn mx o h).1
        = [⟨.destroyCDKEntry, [.ptr h]⟩] := by
      simp [text_entry.destruct, text_entry.construct, hne]
    refine ⟨h1, h2, h3, ?_⟩
    rw [countEP_append, countEP_append, h1, h2, h3]
    rfl
  · intro tk parent p size title lbl list fc hl o h ms hne
    have h1 : countEP .destroyCDKAlphalist
        (alpha_list.construct parent p size title lbl list fc hl o h).2 = 0 := rfl
    have h2 : countEP .destroyCDKAlphalist (methodTrace tk ms) = 0 :=
      countEP_methodTrace tk ms .destroyCDKAlphalist rfl
    have h3 : alpha_list.destruct
        (alpha_list.construct parent p size title lbl list fc hl o h).1
        = [⟨.destroyCDKAlphalist, [.ptr h]⟩] := by
      simp [alpha_list.destruct, alpha_list.construct, hne]
    refine ⟨h1, h2, h3, ?_⟩
    rw [countEP_append, countEP_append, h1, h2, h3]
    rfl
  · intro tk parent p title d attr hl opt h ms hne
    have hsplit : (calendar.construct parent p title d attr hl opt h).2.2
        = [⟨.newCDKCalendar, [.ptr parent.ptr, .int p.x, .int p.y, .str title,
            .int d.day, .int d.month, .int d.year, .ch attr.day, .ch attr.month,
            .ch attr.year, .ch hl, .bool opt.box, .bool opt.shadow]⟩]
          ++ (if parent.ptr = 0 then []
              else [⟨.destroyCDKScreen, [.ptr parent.ptr]⟩]) := rfl
    have h1 : countEP .destroyCDKCalendar
        (calendar.construct parent p title d attr hl opt h).2.2 = 0 := by
      rw [hsplit, countEP_append]
      rcases eq_or_ne parent.ptr 0 with hp | hp
      · rw [if_pos hp]; rfl
      · rw [if_neg hp]; rfl
    have h2 : countEP .destroyCDKCalendar (methodTrace tk ms) = 0 :=
      countEP_methodTrace tk ms .destroyCDKCalendar rfl
    have h3 : calendar.destruct (calendar.construct parent p title d attr hl opt h).1
        = [⟨.destroyCDKCalendar, [.ptr h]⟩] := by
      simp [calendar.destruct, calendar.construct, hne]
    refine ⟨h1, h2, h3, ?_⟩
    rw [countEP_append, countEP_append, h1, h2, h3]
    rfl

/-- Claim C2, applied to a concrete lifetime of each widget class (screen
handle 1, widget handle 2, no intervening method calls). -/
theorem claim_C2_witness :
    label.destruct (label.construct ⟨1⟩ ⟨0, 0⟩ ["m"] {} 2).1
        = [⟨.destroyCDKLabel, [.ptr 2]⟩]
  ∧ button.destruct (button.construct ⟨1⟩ ⟨0, 0⟩ "b" 0 {} 2).1
        = [⟨.destroyCDKButton, [.ptr 2]⟩]
  ∧ text_entry.destruct (text_entry.construct ⟨1⟩ ⟨0, 0⟩ "t" "l" 0 0 0 10 0 10 {} 2).1
        = [⟨.destroyCDKEntry, [.ptr 2]⟩]
  ∧ alpha_list.destruct (alpha_list.construct ⟨1⟩ ⟨0, 0⟩ ⟨10, 12⟩ "t" "l" ["a"] 0 0 {} 2).1
        = [⟨.destroyCDKAlphalist, [.ptr 2]⟩]
  ∧ calendar.destruct (calendar.construct ⟨1⟩ ⟨0, 0⟩ "t" ⟨1, 1, 2000⟩ ⟨0, 0, 0⟩ 0 {} 2).1
        = [⟨.destroyCDKCalendar, [.ptr 2]⟩] :=
  ⟨(claim_C2_destroy_exactly_once.1 tk0 ⟨1⟩ ⟨0, 0⟩ ["m"] {} 2 [] (by decide)).2.2.1,
   (claim_C2_destroy_exactly_once.2.1 tk0 ⟨1⟩ ⟨0, 0⟩ "b" 0 {} 2 [] (by decide)).2.2.1,
   (claim_C2_destroy_exactly_once.2.2.1 tk0 ⟨1⟩ ⟨0, 0⟩ "t" "l" 0 0 0 10 0 10 {} 2 [] (by decide)).2.2.1,
   (claim_C2_destroy_exactly_once.2.2.2.1 tk0 ⟨1⟩ ⟨0, 0⟩ ⟨10, 12⟩ "t" "l" ["a"] 0 0 {} 2 [] (by decide)).2.2.1,
   (claim_C2_destroy_exactly_once.2.2.2.2 tk0 ⟨1⟩ ⟨0, 0⟩ "t" ⟨1, 1, 2000⟩ ⟨0, 0, 0⟩ 0 {} 2 [] (by decide)).2.2.1⟩

/-- Claim C7: every widget and screen method performs exactly one toolkit
call, and that call is the corresponding entry point carrying the caller's
parameters unchanged, in the toolkit's declared order, with parameter structs
unpacked and owned string sequences marshalled (specCall, written from the
spec's words). -/
theorem claim_C7_single_call_forwarding :
    ∀ (tk : Toolkit) (m : MethodCall), (run tk m).1 = [specCall m] := by
  intro tk m
  cases m <;> first
    | rfl
    | simp [run, specCall, label.set, label.setMessage, alpha_list.set,
        alpha_list.setContents, calendar.setMonthsNames, transformStringList_eq]

lemma getD_map_range (f : Nat → String) (n i : Nat) (hi : i < n) (d : String) :
    ((List.range n).map f).getD i d = f i := by
  have h1 : ((List.range n).map f)[i]? = some (f i) := by
    rw [List.getElem?_map, List.getElem?_range hi]
    rfl
  rw [List.getD_eq_getElem?_getD, h1]
  rfl

/-- Claim C8: transformStringList returns one pointer per input string, in
order, the i-th pointing to the first character of the i-th input string (on
the model, equal to it); transformCharPtrPtr on an array holding at least
size valid strings, with size non-negative, returns exactly size strings, the
i-th equal to str[i]. -/
theorem claim_C8_string_helpers :
    (∀ v : StringList, (transformStringList v).length = v.length
      ∧ ∀ i : Nat, i < v.length →
          (transformStringList v).getD i "" = string2charptr (v.getD i ""))
  ∧ (∀ (str : List String) (size : Int), 0 ≤ size → size.toNat ≤ str.length →
      (transformCharPtrPtr str size).length = size.toNat
      ∧ ∀ i : Nat, i < size.toNat →
          (transformCharPtrPtr str size).getD i "" = str.getD i "") := by
  constructor
  · intro v
    constructor
    · rw [transformStringList_eq]
    · intro i _
      rw [transformStringList_eq]
      rfl
  · intro str size _ _
    constructor
    · simp [transformCharPtrPtr]
    · intro i hi
      exact getD_map_range (fun j => str.getD j "") size.toNat i hi ""

/-- Claim C8, applied at concrete inputs discharging the hypotheses. -/
theorem claim_C8_witness :
    (transformStringList ["a", "bc"]).getD 1 "" = string2charptr "bc"
  ∧ (transformCharPtrPtr ["x", "y"] 1).length = 1
  ∧ (transformCharPtrPtr ["x", "y"] 1).getD 0 "" = "x" :=
  ⟨(claim_C8_string_helpers.1 ["a", "bc"]).2 1 (by decide),
   (claim_C8_string_helpers.2 ["x", "y"] 1 (by decide) (by decide)).1,
   (claim_C8_string_helpers.2 ["x", "y"] 1 (by decide) (by decide)).2 0 (by decide)⟩

/-- Claim C9: screen::atexit_installed is false initially; over any sequence
of screen constructions from the initial process state the endCDK atexit
handler is registered at most once, and once at least one screen has been
constructed the flag is true and exactly the first construction has registered
the handler; a construction that finds the flag already true leaves the
process state unchanged. -/
theorem claim_C9_atexit_once :
    ProcState.init.atexit_installed = false
  ∧ (∀ ws : List (Nat × Nat),
      (constructMany ws ProcState.init).atexitHandlers.length ≤ 1)
  ∧ (∀ ws : List (Nat × Nat), ws ≠ [] →
      (constructMany ws ProcState.init).atexit_installed = true
      ∧ (constructMany ws ProcState.init).atexitHandlers = [.endCDK])
  ∧ (∀ (win h : Nat) (ps : ProcState), ps.atexit_installed = true →
      (screen.construct win h ps).2.1 = ps) := by
  have hkey : ∀ (ws : List (Nat × Nat)) (w : Nat × Nat),
      constructMany (w :: ws) ProcState.init
        = (⟨true, [.endCDK]⟩ : ProcState) := by
    intro ws w
    unfold constructMany
    rw [List.foldl_cons]
    have h1 : (screen.construct w.1 w.2 ProcState.init).2.1
        = (⟨true, [.endCDK]⟩ : ProcState) := rfl
    rw [h1]
    exact constructMany_installed ws ⟨true, [.endCDK]⟩ rfl
  refine ⟨rfl, ?_, ?_, fun win h ps hp => screen_construct_installed win h ps hp⟩
  · intro ws
    cases ws with
    | nil => decide
    | cons w rest =>
      rw [hkey rest w]
      decide
  · intro ws hne
    cases ws with
    | nil => exact absurd rfl hne
    | cons w rest =>
      rw [hkey rest w]
      exact ⟨rfl, rfl⟩

/-- Claim C9, applied to the one-construction sequence. -/
theorem claim_C9_witness :
    (constructMany [(7, 1)] ProcState.init).atexit_installed = true
  ∧ (constructMany [(7, 1)] ProcState.init).atexitHandlers = [.endCDK] :=
  claim_C9_atexit_once.2.2.1 [(7, 1)] (by decide)

/-- Claim C10: destroying any widget whose handle is null performs no toolkit
call at all; the default-constructed label, button, alpha_list and calendar
all have null handles (text_entry has no default constructor); and when a
constructed widget is move-assigned into an empty one, the assignment itself
performs no toolkit call, the moved-from source is left empty so its
destruction is a no-op, and the target now owns the source's handle. -/
theorem claim_C10_empty_destruct_noop :
    (∀ l : label, l.ptr = 0 → label.destruct l = [])
  ∧ (∀ b : button, b.ptr = 0 → button.destruct b = [])
  ∧ (∀ a : alpha_list, a.ptr = 0 → alpha_list.destruct a = [])
  ∧ (∀ c : calendar, c.ptr = 0 → calendar.destruct c = [])
  ∧ (label.default.ptr = 0 ∧ button.default.ptr = 0
      ∧ alpha_list.default.ptr = 0 ∧ calendar.default.ptr = 0)
  ∧ (∀ dst src : label, dst.ptr = 0 →
      (label.moveAssign dst src).2.2 = []
      ∧ label.destruct (label.moveAssign dst src).2.1 = []
      ∧ (label.moveAssign dst src).1.ptr = src.ptr)
  ∧ (∀ dst src : button, dst.ptr = 0 →
      (button.moveAssign dst src).2.2 = []
      ∧ button.destruct (button.moveAssign dst src).2.1 = []
      ∧ (button.moveAssign dst src).1.ptr = src.ptr)
  ∧ (∀ dst src : alpha_list, dst.ptr = 0 →
      (alpha_list.moveAssign dst src).2.2 = []
      ∧ alpha_list.destruct (alpha_list.moveAssign dst src).2.1 = []
      ∧ (alpha_list.moveAssign dst src).1.ptr = src.ptr)
  ∧ (∀ dst src : calendar, dst.ptr = 0 →
      (calendar.moveAssign dst src).2.2 = []
      ∧ calendar.destruct (calendar.moveAssign dst src).2.1 = []
      ∧ (calendar.moveAssign dst src).1.ptr = src.ptr) := by
  refine ⟨?_, ?_, ?_, ?_, ⟨rfl, rfl, rfl, rfl⟩, ?_, ?_, ?_, ?_⟩
  · intro l hl; simp [label.destruct, hl]
  · intro b hb; simp [button.destruct, hb]
  · intro a ha; simp [alpha_list.destruct, ha]
  · intro c hc; simp [calendar.destruct, hc]
  · intro dst src hd
    exact ⟨by simp [label.moveAssign, hd], rfl, rfl⟩
  · intro dst src hd
    exact ⟨by simp [button.moveAssign, hd], rfl, rfl⟩
  · intro dst src hd
    exact ⟨by simp [alpha_list.moveAssign, hd], rfl, rfl⟩
  · intro dst src hd
    exact ⟨by simp [calendar.moveAssign, hd], rfl, rfl⟩

/-- Claim C10, applied to the demo scenario: a default-constructed label that
has a constructed label move-assigned into it. -/
theorem claim_C10_witness :
    label.destruct label.default = []
  ∧ (label.moveAssign label.default (label.construct ⟨1⟩ ⟨0, 0⟩ ["m"] {} 5).1).2.2 = []
  ∧ label.destruct
      (label.moveAssign label.default (label.construct ⟨1⟩ ⟨0, 0⟩ ["m"] {} 5).1).2.1 = [] :=
  ⟨claim_C10_empty_destruct_noop.1 label.default rfl,
   (claim_C10_empty_destruct_noop.2.2.2.2.2.1 label.default
      (label.construct ⟨1⟩ ⟨0, 0⟩ ["m"] {} 5).1 rfl).1,
   (claim_C10_empty_destruct_noop.2.2.2.2.2.1 label.default
      (label.construct ⟨1⟩ ⟨0, 0⟩ ["m"] {} 5).1 rfl).2.1⟩
